import Mathlib

/-!
# Verification of the infoslides document-construction core

Shallow embedding, in Lean 4, of the slide-construction engine of the
`infoslides` repository: the `Slide` entity (`src/lib/models/Slide.js`),
the dialogue content aggregate (`DialogueContent`, `Speaker`, `Message`,
`CodeBlock`), the abstract `SlideBuilder` and the concrete
`DialogueSlideBuilder` / `ChartSlideBuilder`, the `BuilderRegistry`,
the `TenantRegistry` / `BuilderFactory` resolution pair, and the
`SlideDirector` orchestration sequences.

Modelling conventions:
* JavaScript objects with dynamic keys are embedded as insertion-ordered
  association lists (`JObj`), with JS spread-merge (`{...a, ...b}`),
  property set and truthiness given explicit definitions.
* Fresh identifiers and timestamps (`Date.now()` / `Math.random()` /
  `toISOString()`) are threaded through a counter `Nat`; `genId`
  produces the id string deterministically from the counter.
* JavaScript exceptions are `Except String`; a thrown error leaves the
  caller's state as it was at the call (the model returns `.error`).
* Numbers are rationals (`Rat`), matching the few non-integral literals
  in the source; counts, orders and millisecond offsets are integers
  embedded in `Rat` where serialized.
* Free-form diagnostic payloads (build-step `data` arguments and
  construction-history `data`) are not inspected by any code path and
  are therefore recorded only by method name.
-/

/-- JSON-like dynamic values, as stored in a slide's dynamic fields.
Arrays and objects are represented as in-type cons chains (rather than
nested `List`s) so that the derived decidable equality is structural
and kernel-reducible; the smart constructors `JVal.jarr` / `JVal.jobj`
below give them the usual list syntax. -/
inductive JVal where
  | jnull : JVal
  | jbool : Bool → JVal
  | jnum : Rat → JVal
  | jstr : String → JVal
  | jarrNil : JVal
  | jarrCons : JVal → JVal → JVal
  | jobjNil : JVal
  | jobjCons : String → JVal → JVal → JVal
deriving Repr, DecidableEq

/-- A JSON array from a list of values. -/
def JVal.jarr : List JVal → JVal
  | [] => .jarrNil
  | v :: vs => .jarrCons v (JVal.jarr vs)

/-- A JSON object from a field list. -/
def JVal.jobj : List (String × JVal) → JVal
  | [] => .jobjNil
  | p :: ps => .jobjCons p.1 p.2 (JVal.jobj ps)

/-- The element list of a value, when it is an array. -/
def JVal.asArr : JVal → Option (List JVal)
  | .jarrNil => some []
  | .jarrCons v t =>
      match JVal.asArr t with
      | some vs => some (v :: vs)
      | none => none
  | _ => none

/-- A JavaScript object: insertion-ordered key/value pairs. -/
abbrev JObj := List (String × JVal)

/-- Property read `o[k]`: first binding of the key, if any. -/
def objLookup (o : JObj) (k : String) : Option JVal :=
  (o.find? (fun p => p.1 = k)).map Prod.snd

/-- Property write `o[k] = v`: overwrite in place, append when new. -/
def objSet (o : JObj) (k : String) (v : JVal) : JObj :=
  if (o.find? (fun p => p.1 = k)).isSome then
    o.map (fun p => if p.1 = k then (k, v) else p)
  else
    o ++ [(k, v)]

/-- JS spread-merge `{...a, ...b}`: keys of `a` in order, values
overridden by `b` where present, then the keys of `b` new to `a`. -/
def objMerge (a b : JObj) : JObj :=
  a.map (fun p => (p.1, ((objLookup b p.1).getD p.2))) ++
    b.filter (fun p => (objLookup a p.1).isNone)

/-- Key list of an object. -/
def objKeys (o : JObj) : List String := o.map Prod.fst

/-- JavaScript truthiness of a value (`''`, `0`, `false`, `null` are
falsy; every object and array is truthy). -/
def jTruthy : JVal → Bool
  | .jnull => false
  | .jbool b => b
  | .jnum q => q ≠ 0
  | .jstr s => s ≠ ""
  | .jarrNil => true
  | .jarrCons _ _ => true
  | .jobjNil => true
  | .jobjCons _ _ _ => true

/-- Field-for-field equality of two objects: the same value (or absence)
under every key of either object. -/
def objEquiv (a b : JObj) : Bool :=
  (objKeys a ++ objKeys b).all (fun k => decide (objLookup a k = objLookup b k))

/-- `some s` with `s` truthy, else the default: models `x || d` on an
optionally-present string property. -/
def oStr (x : Option String) (d : String) : String :=
  match x with
  | some s => if s = "" then d else s
  | none => d

/-- Deterministic stand-in for `generateId()`'s
`prefix-${Date.now()}-${random}` string, driven by the id counter. -/
def genId (pfx : String) (c : Nat) : String :=
  pfx ++ "-" ++ toString c

/-- Deterministic stand-in for `new Date().toISOString()`. -/
def genTime (c : Nat) : String :=
  "t" ++ toString c

/-- JS `String.prototype.trim()`: strip leading and trailing
whitespace (implemented over the character list so it evaluates in the
kernel). -/
def jsTrim (s : String) : String :=
  ⟨((s.data.dropWhile Char.isWhitespace).reverse.dropWhile
      Char.isWhitespace).reverse⟩

/-- `code.split('\n').length`: one more than the number of newline
characters. -/
def jsSplitNlCount (s : String) : Nat :=
  (s.data.filter (fun ch => ch = Char.ofNat 10)).length + 1

/-! ## The Slide entity (`src/lib/models/Slide.js`) -/

/-- One entry of the validation record's `errors`/`warnings` lists:
`{ message, timestamp }`. -/
structure VEntry where
  message : String
  timestamp : String
deriving Repr, DecidableEq

/-- The slide's validation record `{ isValid, errors, warnings }`. -/
structure ValidationRec where
  isValid : Bool
  errors : List VEntry
  warnings : List VEntry
deriving Repr, DecidableEq

/-- The validation record a fresh slide starts with. -/
def ValidationRec.initial : ValidationRec :=
  { isValid := false, errors := [], warnings := [] }

/-- The `Slide` entity.  `type` is `null` or a string; the dynamic
object-valued fields are `JObj`s. -/
structure Slide where
  id : String
  type : Option String
  title : String
  subtitle : String
  content : JObj
  layout : JObj
  style : JObj
  metadata : JObj
  assets : JObj
  animations : JObj
  validation : ValidationRec
deriving Repr, DecidableEq

/-- Default layout assigned by the `Slide` constructor. -/
def defaultLayout : JObj :=
  [("type", .jstr "default"), ("columns", .jnum 1),
   ("alignment", .jstr "center"), ("spacing", .jstr "normal")]

/-- Default style assigned by the `Slide` constructor. -/
def defaultStyle : JObj :=
  [("theme", .jstr "default"), ("colors", .jobj []),
   ("typography", .jobj []), ("spacing", .jobj [])]

/-- Default metadata assigned by the `Slide` constructor. -/
def defaultMetadata (c : Nat) : JObj :=
  [("createdAt", .jstr (genTime c)), ("updatedAt", .jstr (genTime c)),
   ("version", .jstr "1.0.0"), ("author", .jnull), ("tenantId", .jnull)]

/-- Default assets record assigned by the `Slide` constructor. -/
def defaultAssets : JObj :=
  [("images", .jarr []), ("icons", .jarr []), ("fonts", .jarr [])]

/-- Default animations record assigned by the `Slide` constructor. -/
def defaultAnimations : JObj :=
  [("entrance", .jnull), ("emphasis", .jnull), ("exit", .jnull)]

/-- `new Slide()`: fresh id from the counter, all defaults. -/
def Slide.new (c : Nat) : Slide :=
  { id := genId "slide" c
    type := none
    title := ""
    subtitle := ""
    content := []
    layout := defaultLayout
    style := defaultStyle
    metadata := defaultMetadata c
    assets := defaultAssets
    animations := defaultAnimations
    validation := ValidationRec.initial }

/-- `slide.touch()`: update the `updatedAt` metadata timestamp. -/
def Slide.touch (s : Slide) (c : Nat) : Slide :=
  { s with metadata := objSet s.metadata "updatedAt" (.jstr (genTime c)) }

/-- `slide.addValidationError(error)`: append a timestamped entry and
flip `isValid` to false. -/
def Slide.addValidationError (s : Slide) (msg : String) (c : Nat) : Slide :=
  { s with validation :=
      { s.validation with
        errors := s.validation.errors ++ [⟨msg, genTime c⟩]
        isValid := false } }

/-- `slide.addValidationWarning(warning)`: append a timestamped entry;
`isValid` is untouched. -/
def Slide.addValidationWarning (s : Slide) (msg : String) (c : Nat) : Slide :=
  { s with validation :=
      { s.validation with
        warnings := s.validation.warnings ++ [⟨msg, genTime c⟩] } }

/-- `slide.clearValidation()`: empty both lists and set `isValid`. -/
def Slide.clearValidation (s : Slide) : Slide :=
  { s with validation := { isValid := true, errors := [], warnings := [] } }

/-! ### Serialization (`toJSON` / `fromJSON`)

`toJSON` returns the slide's fields under their own names; the
serialized form is modelled by `SlideJSON`, whose `validation` field is
optional so that the deserializer's behaviour on input lacking a
validation record can be stated. -/

/-- The shape of `slide.toJSON()` output (and of `Slide.fromJSON`
input).  An absent `validation` key is `none`. -/
structure SlideJSON where
  id : String
  type : Option String
  title : String
  subtitle : String
  content : JObj
  layout : JObj
  style : JObj
  metadata : JObj
  assets : JObj
  animations : JObj
  validation : Option ValidationRec
deriving Repr, DecidableEq

/-- `slide.toJSON()`. -/
def Slide.toJSON (s : Slide) : SlideJSON :=
  { id := s.id, type := s.type, title := s.title, subtitle := s.subtitle
    content := s.content, layout := s.layout, style := s.style
    metadata := s.metadata, assets := s.assets, animations := s.animations
    validation := some s.validation }

/-- `Slide.fromJSON(data)`: starts from `new Slide()` (fresh id and
timestamps from counter `c`), then
`data.id || slide.id`, `data.type || null`, `data.title || ''`,
`data.content || {}`, and spread-merges each object-valued field over
the fresh slide's defaults.  The validation merge
`{...slide.validation, ...data.validation}` over a full record is that
record, and over an absent one is the fresh default. -/
def Slide.fromJSON (data : SlideJSON) (c : Nat) : Slide :=
  let fresh := Slide.new c
  { id := if data.id = "" then fresh.id else data.id
    type := match data.type with
            | some s => if s = "" then none else some s
            | none => none
    title := data.title
    subtitle := data.subtitle
    content := data.content
    layout := objMerge fresh.layout data.layout
    style := objMerge fresh.style data.style
    metadata := objMerge fresh.metadata data.metadata
    assets := objMerge fresh.assets data.assets
    animations := objMerge fresh.animations data.animations
    validation := data.validation.getD fresh.validation }

/-! ## Dialogue domain models
(`src/lib/models/dialogue/Speaker.js`, `CodeBlock.js`, `Message.js`,
`DialogueContent.js`) -/

/-- `Speaker`: dialogue participant.  The styling / personality /
voice-profile records are carried as plain objects. -/
structure Speaker where
  id : String
  name : String
  role : String
  avatarUrl : Option String
  style : JObj
  personality : JObj
  voiceProfile : JObj
  createdAt : String
  updatedAt : String
deriving Repr, DecidableEq

/-- `new Speaker()`. -/
def Speaker.new (c : Nat) : Speaker :=
  { id := genId "speaker" c
    name := ""
    role := "novice"
    avatarUrl := none
    style := [("bubbleColor", .jstr "#FFFFFF"), ("textColor", .jstr "#000000"),
              ("fontFamily", .jstr "sans-serif"), ("fontSize", .jstr "16px"),
              ("avatarPosition", .jstr "left")]
    personality := [("description", .jstr ""), ("tone", .jstr "neutral"),
                    ("speakingStyle", .jstr "")]
    voiceProfile := [("provider", .jnull), ("voiceId", .jnull), ("model", .jnull),
                     ("stability", .jnum (mkRat 1 2)), ("similarity", .jnum (mkRat 3 4)),
                     ("style", .jnum 0), ("speed", .jnum 1)]
    createdAt := genTime c
    updatedAt := genTime c }

/-- `speaker.validate()`: name required and role in the allowed set. -/
def Speaker.validate (s : Speaker) : Bool × List String :=
  let errors :=
    (if s.name = "" ∨ jsTrim s.name = "" then ["Speaker name is required"] else []) ++
    (if s.role = "expert" ∨ s.role = "novice" then []
     else ["Speaker role must be \x22expert\x22 or \x22novice\x22"])
  (errors.isEmpty, errors)

/-- `Speaker.createKobeBryant()`. -/
def Speaker.createKobeBryant (c : Nat) : Speaker :=
  { Speaker.new c with
    name := "KOBE BRYANT"
    role := "expert"
    style := [("bubbleColor", .jstr "#552583"), ("textColor", .jstr "#FDB927"),
              ("fontFamily", .jstr "Helvetica, Arial, sans-serif"),
              ("fontSize", .jstr "16px"), ("avatarPosition", .jstr "left")]
    personality := [("description", .jstr "The Mamba Mentality Developer"),
                    ("tone", .jstr "serious"),
                    ("speakingStyle", .jstr "Rapid-fire technical explanations with discipline focus")]
    voiceProfile := [("provider", .jnull), ("voiceId", .jstr "onyx"),
                     ("model", .jstr "tts-1"), ("stability", .jnum (mkRat 7 10)),
                     ("similarity", .jnum (mkRat 4 5)), ("style", .jnum 0),
                     ("speed", .jnum (mkRat 11 10))] }

/-- `Speaker.createKanyeWest()`. -/
def Speaker.createKanyeWest (c : Nat) : Speaker :=
  { Speaker.new c with
    name := "KANYE WEST"
    role := "novice"
    style := [("bubbleColor", .jstr "#000000"), ("textColor", .jstr "#FFFFFF"),
              ("fontFamily", .jstr "Impact, \x22Arial Black\x22, sans-serif"),
              ("fontSize", .jstr "18px"), ("avatarPosition", .jstr "right")]
    personality := [("description", .jstr "The Chaotic Learner"),
                    ("tone", .jstr "chaotic"),
                    ("speakingStyle", .jstr "Stream of consciousness interruptions and bold questions")]
    voiceProfile := [("provider", .jnull), ("voiceId", .jstr "fable"),
                     ("model", .jstr "tts-1"), ("stability", .jnum (mkRat 3 10)),
                     ("similarity", .jnum (mkRat 7 10)), ("style", .jnum (mkRat 1 2)),
                     ("speed", .jnum (mkRat 19 20))] }

/-- `speaker.toJSON()`. -/
def Speaker.toJSON (s : Speaker) : JVal :=
  .jobj [("id", .jstr s.id), ("name", .jstr s.name), ("role", .jstr s.role),
         ("avatarUrl", match s.avatarUrl with | some u => .jstr u | none => .jnull),
         ("style", .jobj s.style), ("personality", .jobj s.personality),
         ("voiceProfile", .jobj s.voiceProfile),
         ("metadata", .jobj [("createdAt", .jstr s.createdAt),
                             ("updatedAt", .jstr s.updatedAt)])]

/-- One `CodeHighlight` of a code block. -/
structure Highlight where
  startLine : Int
  endLine : Int
  color : String
  label : String
deriving Repr, DecidableEq

/-- `CodeBlock`: code snippet attached to a message. -/
structure CodeBlock where
  id : String
  language : String
  code : String
  title : Option String
  showLineNumbers : Bool
  startLineNumber : Int
  highlights : List Highlight
  theme : String
  style : JObj
  createdAt : String
  updatedAt : String
  linesCount : Nat
deriving Repr, DecidableEq

/-- `updateLinesCount()`: `code.split('\n').length`. -/
def CodeBlock.updateLinesCount (cb : CodeBlock) : CodeBlock :=
  { cb with linesCount := jsSplitNlCount cb.code }

/-- `new CodeBlock()` (constructor ends with `updateLinesCount()`). -/
def CodeBlock.new (c : Nat) : CodeBlock :=
  CodeBlock.updateLinesCount
    { id := genId "code" c
      language := "go"
      code := ""
      title := none
      showLineNumbers := true
      startLineNumber := 1
      highlights := []
      theme := "monokai"
      style := [("fontSize", .jstr "14px"),
                ("fontFamily", .jstr "Fira Code, JetBrains Mono, Consolas, monospace"),
                ("padding", .jstr "16px"), ("borderRadius", .jstr "8px"),
                ("maxHeight", .jstr "400px")]
      createdAt := genTime c
      updatedAt := genTime c
      linesCount := 0 }

/-- `codeBlock.validate()`: required code and language, long-code
warning, and per-highlight range checks. -/
def CodeBlock.validate (cb : CodeBlock) : Bool × List String × List String :=
  let errors :=
    (if cb.code = "" ∨ jsTrim cb.code = "" then ["Code content is required"] else []) ++
    (if cb.language = "" then ["Language is required"] else []) ++
    (cb.highlights.enum.flatMap (fun (i, h) =>
      (if h.startLine > (cb.linesCount : Int) then
        [s!"Highlight {i + 1}: startLine ({h.startLine}) exceeds code length ({cb.linesCount})"]
       else []) ++
      (if h.endLine > (cb.linesCount : Int) then
        [s!"Highlight {i + 1}: endLine ({h.endLine}) exceeds code length ({cb.linesCount})"]
       else []) ++
      (if h.startLine > h.endLine then
        [s!"Highlight {i + 1}: startLine cannot be greater than endLine"]
       else [])))
  let warnings :=
    if cb.linesCount > 50 then
      ["Code block has more than 50 lines - may be too long for mobile display"]
    else []
  (errors.isEmpty, errors, warnings)

/-- `codeBlock.toJSON()`. -/
def CodeBlock.toJSON (cb : CodeBlock) : JVal :=
  .jobj [("id", .jstr cb.id), ("language", .jstr cb.language),
         ("code", .jstr cb.code),
         ("title", match cb.title with | some t => .jstr t | none => .jnull),
         ("showLineNumbers", .jbool cb.showLineNumbers),
         ("startLineNumber", .jnum cb.startLineNumber),
         ("highlights", .jarr (cb.highlights.map (fun h =>
            .jobj [("startLine", .jnum h.startLine), ("endLine", .jnum h.endLine),
                   ("color", .jstr h.color), ("label", .jstr h.label)]))),
         ("theme", .jstr cb.theme), ("style", .jobj cb.style),
         ("metadata", .jobj [("createdAt", .jstr cb.createdAt),
                             ("updatedAt", .jstr cb.updatedAt),
                             ("linesCount", .jnum cb.linesCount)])]

/-- Entrance animation attached to a message. -/
structure Animation where
  type : String
  duration : Int
  delay : Int
deriving Repr, DecidableEq

/-- `Message`: a single dialogue turn. -/
structure Message where
  id : String
  speakerId : String
  text : String
  codeBlock : Option CodeBlock
  order : Int
  timestamp : Int
  animation : Option Animation
  isInterruption : Bool
  createdAt : String
  updatedAt : String
  characterCount : Nat
deriving Repr, DecidableEq

/-- `updateCharacterCount()`: `text.length`. -/
def Message.updateCharacterCount (m : Message) : Message :=
  { m with characterCount := m.text.length }

/-- `new Message()` (constructor ends with `updateCharacterCount()`). -/
def Message.new (c : Nat) : Message :=
  Message.updateCharacterCount
    { id := genId "message" c
      speakerId := ""
      text := ""
      codeBlock := none
      order := 0
      timestamp := 0
      animation := none
      isInterruption := false
      createdAt := genTime c
      updatedAt := genTime c
      characterCount := 0 }

/-- `message.setAnimation(type, duration, delay)` (the `touch()`
timestamp refresh is driven by the counter). -/
def Message.setAnimation (m : Message) (type : String) (duration delay : Int)
    (c : Nat) : Message :=
  Message.updateCharacterCount
    { m with animation := some ⟨type, duration, delay⟩, updatedAt := genTime c }

/-- `message.attachCodeBlock(codeBlock)` on a `CodeBlock` instance. -/
def Message.attachCodeBlock (m : Message) (cb : CodeBlock) (c : Nat) : Message :=
  Message.updateCharacterCount
    { m with codeBlock := some cb, updatedAt := genTime c }

/-- `message.validate()`. -/
def Message.validate (m : Message) : Bool × List String × List String :=
  let cbv := m.codeBlock.map CodeBlock.validate
  let errors :=
    (if m.text = "" ∨ jsTrim m.text = "" then ["Message text is required"] else []) ++
    (if m.speakerId = "" then ["Speaker ID is required"] else []) ++
    (if m.order < 0 then ["Message order must be >= 0"] else []) ++
    (if m.timestamp < 0 then ["Message timestamp must be >= 0"] else []) ++
    (match cbv with
     | some (ok, errs, _) => if ok then [] else errs.map (fun e => s!"Code block: {e}")
     | none => [])
  let warnings :=
    (if m.characterCount > 280 then
      ["Message is longer than 280 characters - may be too long for mobile display"]
     else []) ++
    (match cbv with
     | some (_, _, ws) => ws.map (fun w => s!"Code block: {w}")
     | none => [])
  (errors.isEmpty, errors, warnings)

/-- `message.toJSON()`. -/
def Message.toJSON (m : Message) : JVal :=
  .jobj [("id", .jstr m.id), ("speakerId", .jstr m.speakerId),
         ("text", .jstr m.text),
         ("codeBlock", match m.codeBlock with
                       | some cb => cb.toJSON
                       | none => .jnull),
         ("order", .jnum m.order), ("timestamp", .jnum m.timestamp),
         ("animation", match m.animation with
                       | some a => .jobj [("type", .jstr a.type),
                                          ("duration", .jnum a.duration),
                                          ("delay", .jnum a.delay)]
                       | none => .jnull),
         ("isInterruption", .jbool m.isInterruption),
         ("metadata", .jobj [("createdAt", .jstr m.createdAt),
                             ("updatedAt", .jstr m.updatedAt),
                             ("characterCount", .jnum m.characterCount)])]

/-- The sort key order of the message comparator
`(a, b) => a.order !== b.order ? a.order - b.order : a.timestamp - b.timestamp`. -/
def msgLE (a b : Message) : Bool :=
  decide (a.order < b.order ∨ (a.order = b.order ∧ a.timestamp ≤ b.timestamp))

/-- Insert a message after every already-placed message that compares
less-or-equal, keeping arrival order among ties. -/
def insertMsg (m : Message) : List Message → List Message
  | [] => [m]
  | x :: xs => if msgLE x m then x :: insertMsg m xs else m :: x :: xs

/-- `sortMessages()`: the stable ascending sort of the messages by
`(order, timestamp)` performed by `Array.prototype.sort` with the
source's comparator. -/
def sortMessages (l : List Message) : List Message :=
  l.foldl (fun acc m => insertMsg m acc) []

/-- `DialogueContent`: the conversation aggregate. -/
structure DialogueContent where
  id : String
  title : Option String
  speakers : List Speaker
  messages : List Message
  duration : Int
  createdAt : String
  updatedAt : String
  messageCount : Nat
  speakerCount : Nat
deriving Repr, DecidableEq

/-- `updateCounts()`. -/
def DialogueContent.updateCounts (d : DialogueContent) : DialogueContent :=
  { d with messageCount := d.messages.length, speakerCount := d.speakers.length }

/-- `new DialogueContent()` (constructor ends with `updateCounts()`). -/
def DialogueContent.new (c : Nat) : DialogueContent :=
  DialogueContent.updateCounts
    { id := genId "dialogue" c
      title := none
      speakers := []
      messages := []
      duration := 0
      createdAt := genTime c
      updatedAt := genTime c
      messageCount := 0
      speakerCount := 0 }

/-- `touch()`: refresh `updatedAt` and the counts. -/
def DialogueContent.touch (d : DialogueContent) (c : Nat) : DialogueContent :=
  DialogueContent.updateCounts { d with updatedAt := genTime c }

/-- `addSpeaker(speaker)` on a `Speaker` instance. -/
def DialogueContent.addSpeaker (d : DialogueContent) (s : Speaker) (c : Nat) :
    DialogueContent :=
  DialogueContent.touch { d with speakers := d.speakers ++ [s] } c

/-- `getSpeakerById(speakerId)`. -/
def DialogueContent.getSpeakerById (d : DialogueContent) (speakerId : String) :
    Option Speaker :=
  d.speakers.find? (fun s => s.id = speakerId)

/-- `getSpeakerByName(name)`. -/
def DialogueContent.getSpeakerByName (d : DialogueContent) (name : String) :
    Option Speaker :=
  d.speakers.find? (fun s => s.name = name)

/-- `calculateDuration()`: zero for no messages, else the last
message's timestamp plus `text.length * 50` ms of reading time. -/
def DialogueContent.calculateDuration (d : DialogueContent) : DialogueContent :=
  match d.messages.getLast? with
  | none => { d with duration := 0 }
  | some last => { d with duration := last.timestamp + (last.text.length : Int) * 50 }

/-- `addMessage(message)` on a `Message` instance: push, re-sort,
recompute the duration, touch. -/
def DialogueContent.addMessage (d : DialogueContent) (m : Message) (c : Nat) :
    DialogueContent :=
  DialogueContent.touch
    (DialogueContent.calculateDuration
      { d with messages := sortMessages (d.messages ++ [m]) }) c

/-- `dialogue.validate()`: speaker-count and message-count bounds,
per-speaker and per-message checks, the deferred speaker-reference
check, and the duration window warnings. -/
def DialogueContent.validate (d : DialogueContent) :
    Bool × List String × List String :=
  let speakerErrs :=
    (if d.speakers.isEmpty then ["Dialogue must have at least one speaker"] else []) ++
    (d.speakers.enum.flatMap (fun (i, s) =>
      let (ok, errs) := s.validate
      if ok then [] else errs.map (fun e => s!"Speaker {i + 1} ({s.name}): {e}")))
  let speakerWarns :=
    if d.speakers.length > 10 then
      ["Dialogue has more than 10 speakers - this may be too many for clarity"]
    else []
  let msgErrs :=
    (if d.messages.isEmpty then ["Dialogue must have at least one message"] else []) ++
    (d.messages.enum.flatMap (fun (i, m) =>
      let (ok, errs, _) := m.validate
      (if ok then [] else errs.map (fun e => s!"Message {i + 1}: {e}")) ++
      (if d.speakers.any (fun s => s.id = m.speakerId) then []
       else [s!"Message {i + 1}: References non-existent speaker ID {m.speakerId}"])))
  let msgWarns :=
    (if d.messages.length > 50 then
      ["Dialogue has more than 50 messages - may be too long for Instagram Reels format"]
     else []) ++
    (d.messages.enum.flatMap (fun (i, m) =>
      let (_, _, ws) := m.validate
      ws.map (fun w => s!"Message {i + 1}: {w}")))
  let durWarns :=
    (if d.duration > 90000 then
      [s!"Dialogue duration ({(d.duration + 500) / 1000}s) exceeds recommended 90s for Instagram Reels"]
     else []) ++
    (if d.duration < 5000 then
      [s!"Dialogue duration ({(d.duration + 500) / 1000}s) is less than 5s - may be too short"]
     else [])
  let errors := speakerErrs ++ msgErrs
  let warnings := speakerWarns ++ msgWarns ++ durWarns
  (errors.isEmpty, errors, warnings)

/-- `dialogue.toJSON()`. -/
def DialogueContent.toJSON (d : DialogueContent) : JVal :=
  .jobj [("id", .jstr d.id),
         ("title", match d.title with | some t => .jstr t | none => .jnull),
         ("speakers", .jarr (d.speakers.map Speaker.toJSON)),
         ("messages", .jarr (d.messages.map Message.toJSON)),
         ("duration", .jnum d.duration),
         ("metadata", .jobj [("createdAt", .jstr d.createdAt),
                             ("updatedAt", .jstr d.updatedAt),
                             ("messageCount", .jnum d.messageCount),
                             ("speakerCount", .jnum d.speakerCount)])]

/-- Field-for-field equality of two slides: scalar fields equal, each
object-valued field equal under every key. -/
def slideEquiv (a b : Slide) : Bool :=
  a.id = b.id ∧ a.type = b.type ∧ a.title = b.title ∧
  a.subtitle = b.subtitle ∧
  objEquiv a.content b.content ∧ objEquiv a.layout b.layout ∧
  objEquiv a.style b.style ∧ objEquiv a.metadata b.metadata ∧
  objEquiv a.assets b.assets ∧ objEquiv a.animations b.animations ∧
  a.validation = b.validation

/-! ## The abstract builder (`src/lib/patterns/SlideBuilder.js`) -/

/-- The abstract `SlideBuilder.setTitle`: always throws. -/
def SlideBuilder.abstractSetTitle : Except String Unit :=
  .error "Must implement setTitle"

/-- The abstract `SlideBuilder.setSubtitle`: always throws. -/
def SlideBuilder.abstractSetSubtitle : Except String Unit :=
  .error "Must implement setSubtitle"

/-- The abstract `SlideBuilder.setContent`: always throws. -/
def SlideBuilder.abstractSetContent : Except String Unit :=
  .error "Must implement setContent"

/-- The abstract `SlideBuilder.setLayout`: always throws. -/
def SlideBuilder.abstractSetLayout : Except String Unit :=
  .error "Must implement setLayout"

/-- The abstract `SlideBuilder.setStyle`: always throws. -/
def SlideBuilder.abstractSetStyle : Except String Unit :=
  .error "Must implement setStyle"

/-- The `Title is required` check of `validate()`
(`!this.slide.title || this.slide.title.trim() === ''`). -/
def titleCheckStep (p : Slide × Nat) : Slide × Nat :=
  if p.1.title = "" ∨ jsTrim p.1.title = "" then
    (p.1.addValidationError "Title is required" p.2, p.2 + 1)
  else p

/-- The `Slide type must be specified` check of `validate()`
(`!this.slide.type`). -/
def typeCheckStep (p : Slide × Nat) : Slide × Nat :=
  match p.1.type with
  | some t =>
      if t = "" then
        (p.1.addValidationError "Slide type must be specified" p.2, p.2 + 1)
      else p
  | none => (p.1.addValidationError "Slide type must be specified" p.2, p.2 + 1)

/-- The `Slide has no content` warning of `validate()`
(`Object.keys(this.slide.content).length === 0`). -/
def contentCheckStep (p : Slide × Nat) : Slide × Nat :=
  if p.1.content.isEmpty then
    (p.1.addValidationWarning "Slide has no content" p.2, p.2 + 1)
  else p

/-- The universal rules of `SlideBuilder.validate()`: clear the prior
validation, then require a non-blank title and an assigned type, and
warn on empty content, threading the timestamp counter. -/
def runUniversalValidation (s : Slide) (c : Nat) : Slide × Nat :=
  contentCheckStep (typeCheckStep (titleCheckStep (s.clearValidation, c)))

/-- Append validation errors, one per message, with a prefix. -/
def addErrorsWith (sc : Slide × Nat) (pfx : String) (msgs : List String) :
    Slide × Nat :=
  msgs.foldl (fun p e => (p.1.addValidationError (pfx ++ e) p.2, p.2 + 1)) sc

/-- Append validation warnings, one per message, with a prefix. -/
def addWarningsWith (sc : Slide × Nat) (pfx : String) (msgs : List String) :
    Slide × Nat :=
  msgs.foldl (fun p w => (p.1.addValidationWarning (pfx ++ w) p.2, p.2 + 1)) sc

/-! ## The dialogue builder (`src/lib/builders/DialogueSlideBuilder.js`) -/

/-- In-progress state of a `DialogueSlideBuilder`: the slide, the
dialogue aggregate, the recorded build steps (by method name) and the
id/timestamp counter. -/
structure DialogueBuilderState where
  slide : Slide
  dialogueContent : DialogueContent
  buildSteps : List String
  ctr : Nat
deriving Repr, DecidableEq

namespace DialogueBuilderState

/-- `new DialogueSlideBuilder()`: fresh slide and fresh dialogue. -/
def new (c : Nat) : DialogueBuilderState :=
  { slide := Slide.new c
    dialogueContent := DialogueContent.new (c + 1)
    buildSteps := []
    ctr := c + 2 }

/-- `reset()`: fresh slide, fresh dialogue content, empty steps. -/
def reset (st : DialogueBuilderState) : DialogueBuilderState :=
  new st.ctr

/-- `addBuildStep(step, data)`: record the step and `touch()` the
slide (the free-form `data` payload is diagnostic only). -/
def addBuildStep (st : DialogueBuilderState) (step : String) :
    DialogueBuilderState :=
  { st with buildSteps := st.buildSteps ++ [step]
            slide := st.slide.touch st.ctr
            ctr := st.ctr + 1 }

/-- `setTitle(title)`: slide title, slide type `'dialogue'`, dialogue
title. -/
def setTitle (st : DialogueBuilderState) (title : String) :
    DialogueBuilderState :=
  addBuildStep
    { st with slide := { st.slide with title := title, type := some "dialogue" }
              dialogueContent := { st.dialogueContent with title := some title } }
    "setTitle"

/-- `setSubtitle(subtitle)`. -/
def setSubtitle (st : DialogueBuilderState) (subtitle : String) :
    DialogueBuilderState :=
  addBuildStep { st with slide := { st.slide with subtitle := subtitle } }
    "setSubtitle"

/-- `addSpeaker(speaker)` with a `Speaker` instance. -/
def addSpeaker (st : DialogueBuilderState) (sp : Speaker) :
    DialogueBuilderState :=
  addBuildStep
    { st with dialogueContent := st.dialogueContent.addSpeaker sp st.ctr
              ctr := st.ctr + 1 }
    "addSpeaker"

/-- `addKobeBryant()`. -/
def addKobeBryant (st : DialogueBuilderState) : DialogueBuilderState :=
  let kobe := Speaker.createKobeBryant st.ctr
  addBuildStep
    { st with dialogueContent := st.dialogueContent.addSpeaker kobe (st.ctr + 1)
              ctr := st.ctr + 2 }
    "addKobeBryant"

/-- `addKanyeWest()`. -/
def addKanyeWest (st : DialogueBuilderState) : DialogueBuilderState :=
  let kanye := Speaker.createKanyeWest st.ctr
  addBuildStep
    { st with dialogueContent := st.dialogueContent.addSpeaker kanye (st.ctr + 1)
              ctr := st.ctr + 2 }
    "addKanyeWest"

/-- `addKobeAndKanye()`. -/
def addKobeAndKanye (st : DialogueBuilderState) : DialogueBuilderState :=
  (st.addKobeBryant).addKanyeWest

end DialogueBuilderState

/-- The optional fields of `addMessage`'s `options` argument. -/
structure MsgOptions where
  order : Option Int := none
  timestamp : Option Int := none
  isInterruption : Option Bool := none
  animation : Option Animation := none
deriving Repr, DecidableEq

/-- The optional fields of `addMessageWithCode`'s `options` argument. -/
structure CodeMsgOptions where
  order : Option Int := none
  timestamp : Option Int := none
  language : Option String := none
  codeTitle : Option String := none
  codeTheme : Option String := none
deriving Repr, DecidableEq

namespace DialogueBuilderState

/-- The message `addMessage` constructs once the speaker has
resolved: fresh id, the resolved speaker's id, the text, order
defaulted to the current message count, timestamp defaulted to
`order * 2000`, interruption flag defaulted to false, and the optional
entrance animation. -/
def constructedMessage (speaker : Speaker) (text : String) (opts : MsgOptions)
    (msgCount : Nat) (c : Nat) : Message :=
  let m0 := Message.new c
  let ord := opts.order.getD (msgCount : Int)
  let m1 :=
    { m0 with speakerId := speaker.id
              text := text
              order := ord
              timestamp := opts.timestamp.getD (ord * 2000)
              isInterruption := opts.isInterruption.getD false }
  match opts.animation with
  | some a => m1.setAnimation a.type a.duration a.delay (c + 1)
  | none => m1

/-- `addMessage(speakerName, text, options)`: resolve the speaker by
name inside this builder's own dialogue aggregate; throw (leaving the
state untouched) when the name does not resolve; otherwise build the
message with the resolved speaker's id, defaulted order/timestamp, and
append it. -/
def addMessage (st : DialogueBuilderState) (speakerName text : String)
    (opts : MsgOptions) : Except String DialogueBuilderState :=
  match st.dialogueContent.getSpeakerByName speakerName with
  | none =>
      .error s!"Speaker \x22{speakerName}\x22 not found. Add speaker first."
  | some speaker =>
      .ok (addBuildStep
        { st with
            dialogueContent := st.dialogueContent.addMessage
              (constructedMessage speaker text opts
                st.dialogueContent.messages.length st.ctr)
              (st.ctr + 2)
            ctr := st.ctr + 3 }
        "addMessage")

/-- `addMessageWithCode(speakerName, text, code, options)`. -/
def addMessageWithCode (st : DialogueBuilderState) (speakerName text code : String)
    (opts : CodeMsgOptions) : Except String DialogueBuilderState :=
  match st.dialogueContent.getSpeakerByName speakerName with
  | none =>
      .error s!"Speaker \x22{speakerName}\x22 not found. Add speaker first."
  | some speaker =>
      let m0 := Message.new st.ctr
      let ord := opts.order.getD (st.dialogueContent.messages.length : Int)
      let m1 :=
        { m0 with speakerId := speaker.id
                  text := text
                  order := ord
                  timestamp := opts.timestamp.getD (ord * 2000) }
      let cb0 := CodeBlock.new (st.ctr + 1)
      let cb :=
        CodeBlock.updateLinesCount
          { cb0 with language := oStr opts.language "go"
                     code := code
                     title := match opts.codeTitle with
                              | some t => if t = "" then none else some t
                              | none => none
                     theme := oStr opts.codeTheme "monokai" }
      let m2 := m1.attachCodeBlock cb (st.ctr + 2)
      .ok (addBuildStep
        { st with dialogueContent := st.dialogueContent.addMessage m2 (st.ctr + 3)
                  ctr := st.ctr + 4 }
        "addMessageWithCode")

/-- `setContent(content)`: accept only a `DialogueContent` instance
(`Sum.inl`); any other value (`Sum.inr`) throws. -/
def setContent (st : DialogueBuilderState) (content : DialogueContent ⊕ JVal) :
    Except String DialogueBuilderState :=
  match content with
  | .inl dc => .ok (addBuildStep { st with dialogueContent := dc } "setContent")
  | .inr _ => .error "Content must be an instance of DialogueContent"

end DialogueBuilderState

/-- The content shape finalize installs (factored from `finalize`). -/
def finalizeContent (dc : DialogueContent) : JObj :=
  [("dialogueId", .jstr dc.id),
   ("dialogue", dc.toJSON),
   ("speakers", .jarr (dc.speakers.map Speaker.toJSON)),
   ("messages", .jarr (dc.messages.map Message.toJSON)),
   ("duration", .jnum dc.duration),
   ("messageCount", .jnum dc.messages.length)]

/-- The optional fields of the dialogue builder's `setLayout` input. -/
structure DLayoutInput where
  type : Option String := none
  alignment : Option String := none
  spacing : Option String := none
  bubbleStyle : Option String := none
  avatarPosition : Option String := none
  showTimestamps : Option Bool := none
deriving Repr, DecidableEq

/-- The optional fields of the dialogue builder's `setStyle` input. -/
structure DStyleInput where
  theme : Option String := none
  colors : Option JVal := none
  fontFamily : Option String := none
  fontSize : Option String := none
  lineHeight : Option Rat := none
  spacing : Option JVal := none
  backgroundType : Option String := none
  backgroundColor : Option String := none
deriving Repr, DecidableEq

/-- `x || d` on an optionally-present value. -/
def oVal (x : Option JVal) (d : JVal) : JVal :=
  match x with
  | some v => if jTruthy v then v else d
  | none => d

/-- `x || d` on an optionally-present number. -/
def oNum (x : Option Rat) (d : Rat) : Rat :=
  match x with
  | some q => if q = 0 then d else q
  | none => d

namespace DialogueBuilderState

/-- The dialogue builder's `setLayout(layout)`: rebuild the layout
record with dialogue defaults (always single column). -/
def setLayout (st : DialogueBuilderState) (l : DLayoutInput) :
    DialogueBuilderState :=
  addBuildStep
    { st with slide :=
        { st.slide with layout :=
            [("type", .jstr (oStr l.type "dialogue")),
             ("columns", .jnum 1),
             ("alignment", .jstr (oStr l.alignment "center")),
             ("spacing", .jstr (oStr l.spacing "normal")),
             ("bubbleStyle", .jstr (oStr l.bubbleStyle "rounded")),
             ("avatarPosition", .jstr (oStr l.avatarPosition "side")),
             ("showTimestamps", .jbool (l.showTimestamps.getD false))] } }
    "setLayout"

/-- The dialogue builder's `setStyle(style)`. -/
def setStyle (st : DialogueBuilderState) (s : DStyleInput) :
    DialogueBuilderState :=
  addBuildStep
    { st with slide :=
        { st.slide with style :=
            [("theme", .jstr (oStr s.theme "instagram")),
             ("colors", oVal s.colors (.jobj [])),
             ("typography", .jobj
                [("fontFamily", .jstr (oStr s.fontFamily "Inter, system-ui, sans-serif")),
                 ("fontSize", .jstr (oStr s.fontSize "16px")),
                 ("lineHeight", .jnum (oNum s.lineHeight (mkRat 3 2)))]),
             ("spacing", oVal s.spacing (.jobj [])),
             ("backgroundType", .jstr (oStr s.backgroundType "video")),
             ("backgroundColor", .jstr (oStr s.backgroundColor "#000000"))] } }
    "setStyle"

/-- Inherited `setMetadata(metadata)`: spread-merge into the slide's
metadata. -/
def setMetadata (st : DialogueBuilderState) (md : JObj) : DialogueBuilderState :=
  addBuildStep
    { st with slide := { st.slide with metadata := objMerge st.slide.metadata md } }
    "setMetadata"

/-- Inherited `setTenantId(tenantId)`: assign `metadata.tenantId`. -/
def setTenantId (st : DialogueBuilderState) (tid : JVal) : DialogueBuilderState :=
  addBuildStep
    { st with slide :=
        { st.slide with metadata := objSet st.slide.metadata "tenantId" tid } }
    "setTenantId"

/-- Inherited `addAsset(type, asset)`: create the category list when
absent or falsy, then push.  A truthy non-array entry would make the
push throw in JS; it is not constructible through these operations. -/
def addAsset (st : DialogueBuilderState) (type : String) (asset : JVal) :
    Except String DialogueBuilderState :=
  let base :=
    match objLookup st.slide.assets type with
    | some v => if jTruthy v then v else .jarr []
    | none => .jarr []
  match base.asArr with
  | some xs =>
      .ok (addBuildStep
        { st with slide :=
            { st.slide with assets :=
                (objSet st.slide.assets type (.jarr (xs ++ [asset]))) } }
        "addAsset")
  | none => .error "TypeError: push is not a function"

/-- Inherited `setAnimations(animations)`: spread-merge. -/
def setAnimations (st : DialogueBuilderState) (anims : JObj) :
    DialogueBuilderState :=
  addBuildStep
    { st with slide :=
        { st.slide with animations := objMerge st.slide.animations anims } }
    "setAnimations"

/-- `finalize()`: recompute the dialogue duration and store the
serialized dialogue in the slide content. -/
def finalize (st : DialogueBuilderState) : DialogueBuilderState :=
  let dc := st.dialogueContent.calculateDuration
  addBuildStep
    { st with
        dialogueContent := dc
        slide := { st.slide with content := finalizeContent dc } }
    "finalize"

/-- The dialogue builder's `customValidation()`: fold the dialogue
aggregate's own validation into the slide (errors only when the
aggregate is invalid, warnings always), then flag an unfinalized
content. -/
def customValidation (st : DialogueBuilderState) : DialogueBuilderState :=
  let dv := st.dialogueContent.validate
  let sc0 :=
    if dv.1 then (st.slide, st.ctr)
    else addErrorsWith (st.slide, st.ctr) "Dialogue: " dv.2.1
  let sc1 := addWarningsWith sc0 "Dialogue: " dv.2.2
  let sc2 :=
    if jTruthy ((objLookup sc1.1.content "dialogue").getD .jnull) then sc1
    else (sc1.1.addValidationError
            "Dialogue content not finalized. Call finalize() before getResult()"
            sc1.2,
          sc1.2 + 1)
  { st with slide := sc2.1, ctr := sc2.2 }

/-- Inherited `validate()`: universal rules, then `customValidation`. -/
def validate (st : DialogueBuilderState) : DialogueBuilderState :=
  let p := runUniversalValidation st.slide st.ctr
  customValidation { st with slide := p.1, ctr := p.2 }

/-- The dialogue builder's `getResult()`: auto-`finalize()` when the
content has no truthy `dialogue` field, then the inherited
`getResult()` (validate and hand out the slide). -/
def getResult (st : DialogueBuilderState) : Slide × DialogueBuilderState :=
  let st1 :=
    if jTruthy ((objLookup st.slide.content "dialogue").getD .jnull) then st
    else st.finalize
  let st2 := st1.validate
  (st2.slide, st2)

end DialogueBuilderState

/-! ## The chart builder (`src/lib/builders/ChartSlideBuilder.js`) -/

/-- In-progress state of a `ChartSlideBuilder` (no chart-specific
`customValidation`, no build-step recording in its setters). -/
structure ChartBuilderState where
  slide : Slide
  ctr : Nat
deriving Repr, DecidableEq

/-- The fields read by the chart builder's `setContent` (absent fields
surface as `jnull`, standing in for `undefined`). -/
structure ChartContentInput where
  data : Option JVal := none
  chartType : Option JVal := none
  axes : Option JVal := none
  legend : Option JVal := none
deriving Repr, DecidableEq

namespace ChartBuilderState

/-- `new ChartSlideBuilder()`. -/
def new (c : Nat) : ChartBuilderState :=
  { slide := Slide.new c, ctr := c + 1 }

/-- `setTitle(title)`. -/
def setTitle (st : ChartBuilderState) (title : String) : ChartBuilderState :=
  { st with slide := { st.slide with title := title, type := some "chart" } }

/-- `setContent(content)`: fixed four-key content record, with
`legend: content.legend || true`. -/
def setContent (st : ChartBuilderState) (c : ChartContentInput) : ChartBuilderState :=
  { st with slide :=
      { st.slide with content :=
          [("data", c.data.getD .jnull),
           ("chartType", c.chartType.getD .jnull),
           ("axes", c.axes.getD .jnull),
           ("legend", oVal c.legend (.jbool true))] } }

/-- `setLayout(layout)`: spread the caller's layout, then default
`chartPosition` and `showDataLabels` — the `Slide` constructor's
default layout keys are dropped. -/
def setLayout (st : ChartBuilderState) (layout : JObj) : ChartBuilderState :=
  { st with slide :=
      { st.slide with layout :=
          (objMerge layout
            [("chartPosition", oVal (objLookup layout "chartPosition") (.jstr "center")),
             ("showDataLabels", oVal (objLookup layout "showDataLabels") (.jbool false))]) } }

/-- `setStyle(style)`: spread the caller's style, then default
`colorScheme` and `borderWidth`. -/
def setStyle (st : ChartBuilderState) (style : JObj) : ChartBuilderState :=
  { st with slide :=
      { st.slide with style :=
          (objMerge style
            [("colorScheme", oVal (objLookup style "colorScheme") (.jstr "default")),
             ("borderWidth", oVal (objLookup style "borderWidth") (.jnum 1))]) } }

/-- Inherited `getResult()`: inherited `validate()` (universal rules,
no-op `customValidation`), then the slide. -/
def getResult (st : ChartBuilderState) : Slide × ChartBuilderState :=
  let (s, c) := runUniversalValidation st.slide st.ctr
  (s, { st with slide := s, ctr := c })

end ChartBuilderState

/-! ## The builder registry (`src/lib/registry/BuilderRegistry.js`) -/

/-- Generic association read for the registry's `Map`s. -/
def alistGet {α : Type} (m : List (String × α)) (k : String) : Option α :=
  (m.find? (fun p => p.1 = k)).map Prod.snd

/-- Generic association write: `Map.set` replaces an existing key in
place and appends a new one. -/
def alistSet {α : Type} (m : List (String × α)) (k : String) (v : α) :
    List (String × α) :=
  if (m.find? (fun p => p.1 = k)).isSome then
    m.map (fun p => if p.1 = k then (k, v) else p)
  else
    m ++ [(k, v)]

/-- Structural description of a builder constructor as the registry
probes it: whether each required operation exists as a function on
instances, and whether invoking each of the four abstract setters
throws (`true` for a class inheriting the abstract base's setters). -/
structure BuilderClassSpec where
  hasSetTitle : Bool
  hasSetContent : Bool
  hasSetLayout : Bool
  hasSetStyle : Bool
  hasGetResult : Bool
  setTitleThrows : Bool
  setContentThrows : Bool
  setLayoutThrows : Bool
  setStyleThrows : Bool
deriving Repr, DecidableEq

/-- The class spec of a constructor that inherits every required
operation from the abstract `SlideBuilder` without overriding it: each
operation exists (so the presence checks pass), and each abstract
setter throws when invoked. -/
def inheritedBaseBuilderClass : BuilderClassSpec :=
  { hasSetTitle := true, hasSetContent := true, hasSetLayout := true
    hasSetStyle := true, hasGetResult := true
    setTitleThrows := true, setContentThrows := true
    setLayoutThrows := true, setStyleThrows := true }

/-- State of the static `BuilderRegistry`: the builder map and the
metadata map. -/
structure RegistryState where
  registry : List (String × BuilderClassSpec)
  metadata : List (String × JObj)
deriving Repr, DecidableEq

/-- `BuilderRegistry.validateBuilder(builderClass, slideType)`: each
required method must exist as a function on a probe instance.  The
second loop then invokes each abstract method inside try/catch and
ignores any thrown error, for abstract and concrete implementations
alike — it never rejects. -/
def validateBuilder (bc : BuilderClassSpec) (slideType : String) :
    Except String Unit :=
  if ¬ bc.hasSetTitle then
    .error s!"Builder for {slideType} must implement setTitle method"
  else if ¬ bc.hasSetContent then
    .error s!"Builder for {slideType} must implement setContent method"
  else if ¬ bc.hasSetLayout then
    .error s!"Builder for {slideType} must implement setLayout method"
  else if ¬ bc.hasSetStyle then
    .error s!"Builder for {slideType} must implement setStyle method"
  else if ¬ bc.hasGetResult then
    .error s!"Builder for {slideType} must implement getResult method"
  else
    .ok ()

/-- `BuilderRegistry.registerBuilder(slideType, builderClass,
metadata)`: key check, conformance check, then store the class and its
defaulted metadata record (an error return carries no state: the
registry is left as it was). -/
def registerBuilder (st : RegistryState) (slideType : String)
    (bc : BuilderClassSpec) (md : JObj) (c : Nat) : Except String RegistryState := do
  if slideType = "" then
    throw "Slide type must be a non-empty string"
  validateBuilder bc slideType
  let defaults : JObj :=
    [("name", oVal (objLookup md "name") (.jstr slideType)),
     ("description", oVal (objLookup md "description")
        (.jstr s!"Builder for {slideType} slides")),
     ("category", oVal (objLookup md "category") (.jstr "standard")),
     ("version", oVal (objLookup md "version") (.jstr "1.0.0")),
     ("author", oVal (objLookup md "author") (.jstr "unknown")),
     ("tenantSpecific", oVal (objLookup md "tenantSpecific") (.jbool false)),
     ("supportedFeatures", oVal (objLookup md "supportedFeatures") (.jarr [])),
     ("registeredAt", .jstr (genTime c))]
  return { registry := alistSet st.registry slideType bc
           metadata := alistSet st.metadata slideType (objMerge defaults md) }

/-- `BuilderRegistry.getBuilder(slideType)`. -/
def getBuilder (st : RegistryState) (slideType : String) :
    Except String BuilderClassSpec :=
  match alistGet st.registry slideType with
  | some bc => .ok bc
  | none => .error s!"No builder registered for slide type: {slideType}"

/-- `BuilderRegistry.createBuilder(slideType)`: resolve the class and
instantiate it (instantiation is modelled by the class spec itself). -/
def createBuilder (st : RegistryState) (slideType : String) :
    Except String BuilderClassSpec :=
  getBuilder st slideType

/-- `BuilderRegistry.hasBuilder(slideType)`. -/
def hasBuilder (st : RegistryState) (slideType : String) : Bool :=
  (alistGet st.registry slideType).isSome

/-! ## Tenant registry and builder factory
(`src/lib/factories/TenantRegistry.js`, `BuilderFactory.js`) -/

/-- The builder constructors the factory can hand out: the two
defaults and tenant-supplied custom constructors (by name). -/
inductive FactoryBuilderClass where
  | textB : FactoryBuilderClass
  | chartB : FactoryBuilderClass
  | customB : String → FactoryBuilderClass
deriving Repr, DecidableEq

/-- An instance produced by the factory, tagged with its class. -/
structure FactoryBuilderInstance where
  ofClass : FactoryBuilderClass
deriving Repr, DecidableEq

/-- The raw configuration object handed to `registerTenant`.  A
custom-builder entry whose value is `none` models a key present with a
null/undefined constructor. -/
structure TenantConfigInput where
  tenantId : Option String := none
  name : Option String := none
  styleType : Option String := none
  brandColors : Option JVal := none
  customBuilders : Option (List (String × Option FactoryBuilderClass)) := none
  layoutPreferences : Option JVal := none
  requiresWatermark : Option Bool := none
  watermark : Option String := none
deriving Repr, DecidableEq

/-- `TenantConfiguration` as built by its constructor (`config.x ||
default` defaulting). -/
structure TenantConfiguration where
  tenantId : Option String
  name : Option String
  styleType : String
  brandColors : JVal
  customBuilders : List (String × Option FactoryBuilderClass)
  layoutPreferences : JVal
  requiresWatermark : Bool
  watermark : String
deriving Repr, DecidableEq

/-- `new TenantConfiguration(config)`. -/
def TenantConfiguration.make (cfg : TenantConfigInput) : TenantConfiguration :=
  { tenantId := cfg.tenantId
    name := cfg.name
    styleType := oStr cfg.styleType "corporate"
    brandColors := oVal cfg.brandColors (.jobj [])
    customBuilders := cfg.customBuilders.getD []
    layoutPreferences := oVal cfg.layoutPreferences (.jobj [])
    requiresWatermark := cfg.requiresWatermark.getD false
    watermark := oStr cfg.watermark "" }

/-- `hasCustomBuilder(slideType)`: `hasOwnProperty`, so a key present
with a null constructor still counts. -/
def TenantConfiguration.hasCustomBuilder (t : TenantConfiguration)
    (slideType : String) : Bool :=
  (alistGet t.customBuilders slideType).isSome

/-- `getCustomBuilder(slideType)`: instantiate the stored constructor,
or return null when the stored value is falsy. -/
def TenantConfiguration.getCustomBuilder (t : TenantConfiguration)
    (slideType : String) : Option FactoryBuilderInstance :=
  match alistGet t.customBuilders slideType with
  | some (some cls) => some ⟨cls⟩
  | some none => none
  | none => none

/-- State of the static `TenantRegistry`: tenant id to configuration. -/
abbrev TenantRegistryState := List (String × TenantConfiguration)

/-- `TenantRegistry.registerTenant(tenantId, config)`. -/
def registerTenant (ts : TenantRegistryState) (tenantId : String)
    (cfg : TenantConfigInput) : TenantRegistryState :=
  alistSet ts tenantId (TenantConfiguration.make cfg)

/-- `TenantRegistry.getTenant(tenantId)`. -/
def getTenant (ts : TenantRegistryState) (tenantId : String) :
    Option TenantConfiguration :=
  alistGet ts tenantId

/-- The default branch of `BuilderFactory.createBuilder`'s `switch`:
`text` and `chart` have default builders, `infographic` and every
unknown key throw. -/
def factoryDefaultBuilder (slideType : String) :
    Except String (Option FactoryBuilderInstance) :=
  if slideType = "text" then .ok (some ⟨.textB⟩)
  else if slideType = "chart" then .ok (some ⟨.chartB⟩)
  else if slideType = "infographic" then
    .error "InfographicSlideBuilder not yet implemented"
  else .error s!"Unknown slide type: {slideType}"

/-- `BuilderFactory.createBuilder(slideType, tenantId)`: tenant
override first (`tenant?.hasCustomBuilder`), then the default switch.
`.ok none` models the null return of a present-but-null override. -/
def factoryCreateBuilder (ts : TenantRegistryState) (slideType tenantId : String) :
    Except String (Option FactoryBuilderInstance) :=
  match getTenant ts tenantId with
  | some t =>
      if t.hasCustomBuilder slideType then .ok (t.getCustomBuilder slideType)
      else factoryDefaultBuilder slideType
  | none => factoryDefaultBuilder slideType

/-! ## The director (`src/lib/patterns/SlideDirector.js`), threaded
with a `DialogueSlideBuilder` -/

/-- A tenant validation rule as consumed by
`validateWithTenantRules`: `hasValidate` models
`typeof rule.validate === 'function'`; the predicate may throw
(`Except.error`). -/
structure TenantRule where
  hasValidate : Bool
  validate : Slide → Except String Bool
  message : Option String

/-- The tenant context threaded through `buildAdvancedSlide`. -/
structure TenantContext where
  tenantId : Option String := none
  layoutStrategy : Option (String → DLayoutInput) := none
  styleStrategy : Option DStyleInput := none
  requiresWatermark : Bool := false
  watermark : String := ""
  complianceLevel : Option String := none
  branding : Option JVal := none
  validationRules : Option (List TenantRule) := none

/-- The construction input (`slideData`) for the advanced sequence.
`content` is either a `DialogueContent` instance or some other value
(which the dialogue builder's `setContent` rejects). -/
structure SlideData where
  title : String := ""
  subtitle : Option String := none
  content : DialogueContent ⊕ JVal
  layout : Option DLayoutInput := none
  layoutType : Option String := none
  style : Option DStyleInput := none
  animations : Option JObj := none
  assets : Option (List (String × List JVal)) := none
  tenantId : Option String := none

/-- One construction-history entry (`method`, resulting slide id,
success flag; the free-form `data` payload and timestamp are
diagnostic only). -/
structure HistEntry where
  method : String
  slideId : String
  success : Bool
deriving Repr, DecidableEq

/-- Director state: the assigned dialogue builder, the construction
history and the console-error log. -/
structure DirectorState where
  builder : DialogueBuilderState
  constructionHistory : List HistEntry
  log : List String

/-- An optional string as a JS value (`undefined` as `jnull`). -/
def jOfStrOpt : Option String → JVal
  | some s => .jstr s
  | none => .jnull

/-- JS `a || b`. -/
def jOr (a b : JVal) : JVal :=
  if jTruthy a then a else b

/-- The watermark step of `applyTenantEnhancements`: inject the
tenant's watermark text only when required, configured truthy, and not
already present on the content. -/
def enhWatermarkStep (ctx : TenantContext) (s : Slide) : Slide :=
  if ctx.requiresWatermark ∧ ctx.watermark ≠ "" then
    if jTruthy ((objLookup s.content "watermark").getD .jnull) then s
    else { s with content := objSet s.content "watermark" (.jstr ctx.watermark) }
  else s

/-- The compliance step of `applyTenantEnhancements`. -/
def enhComplianceStep (ctx : TenantContext) (s : Slide) : Slide :=
  match ctx.complianceLevel with
  | some lvl =>
      if lvl = "" then s
      else { s with metadata := objSet s.metadata "complianceLevel" (.jstr lvl) }
  | none => s

/-- The branding step of `applyTenantEnhancements`. -/
def enhBrandingStep (ctx : TenantContext) (s : Slide) : Slide :=
  match ctx.branding with
  | some b =>
      if jTruthy b then { s with style := objSet s.style "branding" b } else s
  | none => s

/-- `applyTenantEnhancements(slide, tenantContext)`: watermark (only
when required, configured truthy, and not already present), compliance
level, branding, then `touch()`. -/
def applyTenantEnhancements (s : Slide) (ctx : TenantContext) (c : Nat) :
    Slide × Nat :=
  ((enhBrandingStep ctx (enhComplianceStep ctx (enhWatermarkStep ctx s))).touch c,
   c + 1)

/-- One step of `validateWithTenantRules`'s loop over the rules. -/
def tenantRuleStep (p : Slide × Nat) (rule : TenantRule) : Slide × Nat :=
  if rule.hasValidate then
    match rule.validate p.1 with
    | .ok isValid =>
        if isValid then p
        else (p.1.addValidationError
                (oStr rule.message "Tenant validation rule failed") p.2,
              p.2 + 1)
    | .error e =>
        (p.1.addValidationError s!"Validation rule error: {e}" p.2, p.2 + 1)
  else p

/-- `validateWithTenantRules(slide, validationRules)`: run each rule's
predicate; a false result attaches the rule's message as a validation
error, a thrown predicate is caught and converted into a named
validation error. -/
def validateWithTenantRules (s : Slide) (rules : List TenantRule) (c : Nat) :
    Slide × Nat :=
  rules.foldl tenantRuleStep (s, c)

/-- The optional-subtitle step of the advanced sequence
(`if (slideData.subtitle) builder.setSubtitle(...)`). -/
def advSubtitleStage (sd : SlideData) (b : DialogueBuilderState) :
    DialogueBuilderState :=
  match sd.subtitle with
  | some s => if s = "" then b else b.setSubtitle s
  | none => b

/-- The layout step: tenant layout strategy when configured, else the
caller's layout when supplied. -/
def advLayoutStage (ctx : TenantContext) (sd : SlideData)
    (b : DialogueBuilderState) : DialogueBuilderState :=
  match ctx.layoutStrategy with
  | some strat => b.setLayout (strat (oStr sd.layoutType "default"))
  | none =>
      match sd.layout with
      | some l => b.setLayout l
      | none => b

/-- The style step: tenant style strategy when configured, else the
caller's style when supplied. -/
def advStyleStage (ctx : TenantContext) (sd : SlideData)
    (b : DialogueBuilderState) : DialogueBuilderState :=
  match ctx.styleStrategy with
  | some style => b.setStyle style
  | none =>
      match sd.style with
      | some s => b.setStyle s
      | none => b

/-- The optional-animations step. -/
def advAnimStage (sd : SlideData) (b : DialogueBuilderState) :
    DialogueBuilderState :=
  match sd.animations with
  | some a => b.setAnimations a
  | none => b

/-- The assets step: push every supplied asset under its category. -/
def advAssetsStage (sd : SlideData) (b : DialogueBuilderState) :
    Except String DialogueBuilderState :=
  match sd.assets with
  | some entries =>
      entries.foldlM (fun b e => e.2.foldlM (fun b a => b.addAsset e.1 a) b) b
  | none => pure b

/-- The tenant post-processing and rules step applied to the finished
slide. -/
def advPostStage (ctx : TenantContext) (result : Slide) (c : Nat) :
    Slide × Nat :=
  let p1 := applyTenantEnhancements result ctx c
  match ctx.validationRules with
  | some rules => validateWithTenantRules p1.1 rules p1.2
  | none => p1

/-- The builder-driving prefix of the advanced sequence: reset, tenant
id, title, optional subtitle, content, layout/style/animation stages
and the asset pushes. -/
def advPreStage (ds : DirectorState) (sd : SlideData) (ctx : TenantContext) :
    Except String DialogueBuilderState := do
  let b3 := advSubtitleStage sd
    ((ds.builder.reset.setTenantId
        (jOr (jOfStrOpt ctx.tenantId) (jOfStrOpt sd.tenantId))).setTitle sd.title)
  let b4 ← b3.setContent sd.content
  advAssetsStage sd (advAnimStage sd (advStyleStage ctx sd (advLayoutStage ctx sd b4)))

/-- `buildAdvancedSlide(slideData, tenantContext)`: reset, bind tenant
id, title, optional subtitle, content, tenant layout/style strategies
with caller fallbacks, animations, assets, result, tenant
post-processing, tenant rules, and one history entry.  The slide the
builder holds and the returned slide are one object, so the enhanced
and rule-checked slide is written back into the builder state. -/
def buildAdvancedSlide (ds : DirectorState) (sd : SlideData)
    (ctx : TenantContext) : Except String (Slide × DirectorState) := do
  let b8 ← advPreStage ds sd ctx
  let rp := b8.getResult
  let p2 := advPostStage ctx rp.1 rp.2.ctr
  let b10 := { rp.2 with slide := p2.1, ctr := p2.2 }
  let entry : HistEntry :=
    { method := "buildAdvancedSlide", slideId := p2.1.id
      success := p2.1.validation.isValid }
  return (p2.1, { ds with builder := b10
                          constructionHistory := ds.constructionHistory ++ [entry] })

/-- One step of `buildMultipleSlides`'s indexed map: try the advanced
sequence, record `null` and a console-error line on failure.  (In JS a
failing call has already mutated the shared builder before throwing;
the next iteration's `reset()` discards that state, so dropping it
here is observationally equal.) -/
def batchStep (ctx : TenantContext)
    (acc : List (Option Slide) × DirectorState) (p : Nat × SlideData) :
    List (Option Slide) × DirectorState :=
  match buildAdvancedSlide acc.2 p.2 ctx with
  | .ok (s, ds') => (acc.1 ++ [some s], ds')
  | .error e =>
      (acc.1 ++ [none],
       { acc.2 with log := acc.2.log ++ [s!"Failed to build slide {p.1}: {e}"] })

/-- `buildMultipleSlides(slidesData, tenantContext)`: map the advanced
sequence over the indexed inputs with per-item catch, then
`filter(Boolean)`. -/
def buildMultipleSlides (ds : DirectorState) (inputs : List SlideData)
    (ctx : TenantContext) : List Slide × DirectorState :=
  let (res, ds') := inputs.enum.foldl (batchStep ctx) ([], ds)
  (res.filterMap id, ds')

/-! ## Operation alphabets for reachable-state claims -/

/-- The value of an `Except` when it succeeded, else the fallback. -/
def exceptD {e a : Type} (x : Except e a) (d : a) : a :=
  match x with
  | .ok v => v
  | .error _ => d

/-- The validation operations of the document/builder: appending an
error, appending a warning, clearing, and the builder's full validate
pass. -/
inductive ValidationOp where
  | addError : String → ValidationOp
  | addWarning : String → ValidationOp
  | clear : ValidationOp
  | validatePass : ValidationOp

/-- Apply one validation operation to the builder state. -/
def applyValidationOp (st : DialogueBuilderState) :
    ValidationOp → DialogueBuilderState
  | .addError m =>
      { st with slide := st.slide.addValidationError m st.ctr, ctr := st.ctr + 1 }
  | .addWarning m =>
      { st with slide := st.slide.addValidationWarning m st.ctr, ctr := st.ctr + 1 }
  | .clear => { st with slide := st.slide.clearValidation }
  | .validatePass => st.validate

/-- Run a sequence of validation operations. -/
def runValidationOps (st : DialogueBuilderState) (ops : List ValidationOp) :
    DialogueBuilderState :=
  ops.foldl applyValidationOp st

/-- The full method alphabet of the dialogue builder. -/
inductive BuilderOp where
  | reset : BuilderOp
  | setTitle : String → BuilderOp
  | setSubtitle : String → BuilderOp
  | addSpeaker : Speaker → BuilderOp
  | addKobeBryant : BuilderOp
  | addKanyeWest : BuilderOp
  | addKobeAndKanye : BuilderOp
  | addMessage : String → String → MsgOptions → BuilderOp
  | addMessageWithCode : String → String → String → CodeMsgOptions → BuilderOp
  | setContent : DialogueContent ⊕ JVal → BuilderOp
  | setLayout : DLayoutInput → BuilderOp
  | setStyle : DStyleInput → BuilderOp
  | setMetadata : JObj → BuilderOp
  | setTenantId : JVal → BuilderOp
  | addAsset : String → JVal → BuilderOp
  | setAnimations : JObj → BuilderOp
  | finalize : BuilderOp
  | validatePass : BuilderOp
  | getResultOp : BuilderOp

/-- Apply one builder method; a thrown method leaves the state as it
was at the call. -/
def applyBuilderOp (st : DialogueBuilderState) : BuilderOp → DialogueBuilderState
  | .reset => st.reset
  | .setTitle t => st.setTitle t
  | .setSubtitle s => st.setSubtitle s
  | .addSpeaker sp => st.addSpeaker sp
  | .addKobeBryant => st.addKobeBryant
  | .addKanyeWest => st.addKanyeWest
  | .addKobeAndKanye => st.addKobeAndKanye
  | .addMessage n t o => exceptD (st.addMessage n t o) st
  | .addMessageWithCode n t c o => exceptD (st.addMessageWithCode n t c o) st
  | .setContent c => exceptD (st.setContent c) st
  | .setLayout l => st.setLayout l
  | .setStyle s => st.setStyle s
  | .setMetadata m => st.setMetadata m
  | .setTenantId v => st.setTenantId v
  | .addAsset ty a => exceptD (st.addAsset ty a) st
  | .setAnimations a => st.setAnimations a
  | .finalize => st.finalize
  | .validatePass => st.validate
  | .getResultOp => (st.getResult).2

/-- Run a sequence of builder methods from a fresh builder. -/
def runBuilderOps (st : DialogueBuilderState) (ops : List BuilderOp) :
    DialogueBuilderState :=
  ops.foldl applyBuilderOp st

/-- Modelled from the spec: the total-duration formula as §4.3 words
it — "summing per-turn display offsets plus an estimated reading time
per turn (character count × a fixed per-character reading-rate
constant)", with the source's 50 ms/character constant.  Used to
compare the specified formula against `calculateDuration`. -/
def specSumDuration (msgs : List Message) : Int :=
  (msgs.map (fun m => m.timestamp + (m.text.length : Int) * 50)).sum

/-! ## Concrete fixtures used by witnesses and counterexamples -/

/-- A constructor whose instances expose none of the required
operations. -/
def noMethodsBuilderClass : BuilderClassSpec :=
  { hasSetTitle := false, hasSetContent := false, hasSetLayout := false
    hasSetStyle := false, hasGetResult := false
    setTitleThrows := false, setContentThrows := false
    setLayoutThrows := false, setStyleThrows := false }

/-- Tenant configuration input declaring a custom builder for the
`"conversation"` content type. -/
def acmeConfig : TenantConfigInput :=
  { tenantId := some "acme"
    customBuilders := some [("conversation", some (.customB "X"))] }

/-- Tenant configuration input with no overrides. -/
def globexConfig : TenantConfigInput :=
  { tenantId := some "globex" }

/-- A registry with one overriding tenant and one override-free
tenant. -/
def demoTenantRegistry : TenantRegistryState :=
  registerTenant (registerTenant [] "acme" acmeConfig) "globex" globexConfig

/-- A chart slide built through the chart builder with empty layout
and style inputs: its layout record drops the `Slide` constructor's
default keys. -/
def chartDemoSlide : Slide :=
  (((((ChartBuilderState.new 0).setTitle "Sales").setContent
      { data := some (.jarr [.jnum 1]) }).setLayout []).setStyle []).getResult.1

/-- The invariant the spec asserts of the validation record:
`isValid` holds exactly when the error list is empty. -/
def validIffErrorsEmpty (s : Slide) : Prop :=
  s.validation.isValid = true ↔ s.validation.errors = []

/-- Every value stored in the assets record is an array. -/
def assetsArrays (o : JObj) : Prop :=
  ∀ k v, objLookup o k = some v → ∃ xs, v = JVal.jarr xs

/-- A fresh director: a freshly constructed dialogue builder, empty
construction history and empty console-error log. -/
def demoDirector : DirectorState :=
  { builder := DialogueBuilderState.new 0, constructionHistory := [], log := [] }

/-- A minimal well-formed advanced-construction input: a title and a
fresh dialogue-content instance. -/
def demoSlideData : SlideData :=
  { title := "Advanced Slide", content := .inl (DialogueContent.new 0) }

/-- A tenant context that requires a watermark and configures a
nonempty watermark text. -/
def wmCtx : TenantContext :=
  { requiresWatermark := true, watermark := "CONFIDENTIAL" }

/-- The tenant configuration of a registered tenant that declared
`requiresWatermark: true` but supplied no watermark text: the
`TenantConfiguration` constructor defaults `watermark` to the empty
string. -/
def blankWmConfig : TenantConfiguration :=
  TenantConfiguration.make { requiresWatermark := some true }

/-- The tenant context carrying that configuration's watermark
fields. -/
def blankWmCtx : TenantContext :=
  { requiresWatermark := blankWmConfig.requiresWatermark
    watermark := blankWmConfig.watermark }

/-- The message of the error `setContent` throws on a value that is
not a `DialogueContent` instance. -/
def contentErrMsg : String := "Content must be an instance of DialogueContent"

/-- A malformed advanced-construction input: its content is not a
`DialogueContent` instance, so the dialogue builder's `setContent`
throws on it. -/
def badSlideData : SlideData :=
  { title := "bad", content := .inr (.jstr "nope") }

/-- The messages of a slide's validation errors. -/
def errMsgs (s : Slide) : List String := s.validation.errors.map VEntry.message

/-- The message of the error `customValidation` adds when the slide
content carries no truthy `dialogue` field. -/
def notFinalizedMsg : String :=
  "Dialogue content not finalized. Call finalize() before getResult()"

/-! ## Object-level lemmas -/

theorem objLookup_nil (k : String) : objLookup [] k = none := rfl

theorem objLookup_cons (p : String × JVal) (o : JObj) (k : String) :
    objLookup (p :: o) k = if p.1 = k then some p.2 else objLookup o k := by
  by_cases h : p.1 = k <;> simp [objLookup, List.find?_cons, h]

theorem objLookup_append (a b : JObj) (k : String) :
    objLookup (a ++ b) k = (objLookup a k).or (objLookup b k) := by
  simp [objLookup, List.find?_append]
  cases List.find? (fun p => p.1 = k) a <;> simp [Option.or]

theorem objLookup_mapped (g : String × JVal → JVal) (a : JObj) (k : String) :
    objLookup (a.map (fun q => (q.1, g q))) k =
      (a.find? (fun q => q.1 = k)).map g := by
  induction a with
  | nil => rfl
  | cons q l ih =>
      by_cases h : q.1 = k <;>
        simp [objLookup, List.find?_cons, h] at ih ⊢ ;
        simpa [objLookup] using ih

theorem objLookup_filter_keyed (c : String → Bool) (b : JObj) (k : String) :
    objLookup (b.filter (fun q => c q.1)) k =
      if c k then objLookup b k else none := by
  induction b with
  | nil => simp [objLookup]
  | cons q l ih =>
      by_cases hq : q.1 = k
      · subst hq
        by_cases hc : c q.1 <;> simp [objLookup_cons, List.filter_cons, hc, ih]
      · by_cases hc : c q.1 <;> simp [objLookup_cons, List.filter_cons, hc, ih, hq]

theorem objKeys_of_lookup_some (a : JObj) (k : String) (v : JVal)
    (h : objLookup a k = some v) : k ∈ objKeys a := by
  unfold objLookup at h
  obtain ⟨p, hp, hmap⟩ := Option.map_eq_some'.mp h
  have hm := List.mem_of_find?_eq_some hp
  have hk := List.find?_some hp
  simp only [decide_eq_true_eq] at hk
  exact hk ▸ List.mem_map_of_mem Prod.fst hm

theorem objLookup_merge (a b : JObj) (k : String) :
    objLookup (objMerge a b) k =
      match objLookup a k with
      | some v => some ((objLookup b k).getD v)
      | none => objLookup b k := by
  unfold objMerge
  rw [objLookup_append, objLookup_mapped (fun q => (objLookup b q.1).getD q.2),
      objLookup_filter_keyed (fun k' => (objLookup a k').isNone)]
  cases hf : List.find? (fun q => q.1 = k) a with
  | none =>
      have h : objLookup a k = none := by unfold objLookup; rw [hf]; rfl
      simp [h]
  | some p =>
      have hk : p.1 = k := by simpa using List.find?_some hf
      have h : objLookup a k = some p.2 := by unfold objLookup; rw [hf]; rfl
      simp [h, hk]

theorem objLookup_merge_covered (a b : JObj) (k : String)
    (h : ∀ k' ∈ objKeys a, (objLookup b k').isSome) :
    objLookup (objMerge a b) k = objLookup b k := by
  rw [objLookup_merge]
  cases ha : objLookup a k with
  | none => rfl
  | some v =>
      have hk := objKeys_of_lookup_some a k v ha
      obtain ⟨w, hw⟩ := Option.isSome_iff_exists.mp (h k hk)
      simp [hw]

theorem objEquiv_of_lookup_eq (x y : JObj)
    (h : ∀ k, objLookup x k = objLookup y k) : objEquiv x y = true := by
  unfold objEquiv
  rw [List.all_eq_true]
  intro k _
  simp [h k]

theorem objEquiv_refl (x : JObj) : objEquiv x x = true :=
  objEquiv_of_lookup_eq x x (fun _ => rfl)

theorem objLookup_replace (o : JObj) (k : String) (v : JVal) (k' : String) :
    objLookup (o.map (fun p => if p.1 = k then (k, v) else p)) k' =
      if k' = k then
        (if (o.find? (fun p => p.1 = k)).isSome then some v else none)
      else objLookup o k' := by
  induction o with
  | nil => by_cases h : k' = k <;> simp [objLookup, h]
  | cons p l ih =>
      by_cases hp : p.1 = k
      · by_cases hk' : k' = k
        · subst hk'
          simp [objLookup_cons, hp, List.find?_cons]
        · have hk2 : ¬ k = k' := fun h => hk' h.symm
          have hpk' : ¬ p.1 = k' := fun h => hk2 (hp.symm.trans h)
          simp [objLookup_cons, hp, hk', hk2, hpk', ih]
      · by_cases hk' : k' = k
        · subst hk'
          have hd : (decide (p.1 = k')) = false := by simp [hp]
          rw [List.map_cons, if_neg hp, objLookup_cons, if_neg hp, ih,
              List.find?_cons, hd]
          simp
        · by_cases hpk' : p.1 = k' <;>
            simp [objLookup_cons, hp, hk', hpk', ih, List.find?_cons]
theorem objLookup_objSet (o : JObj) (k : String) (v : JVal) (k' : String) :
    objLookup (objSet o k v) k' = if k' = k then some v else objLookup o k' := by
  unfold objSet
  by_cases hs : (List.find? (fun p => p.1 = k) o).isSome
  · rw [if_pos hs, objLookup_replace]
    by_cases hk' : k' = k <;> simp [hk', hs]
  · rw [if_neg hs, objLookup_append]
    by_cases hk' : k' = k
    · subst hk'
      have hfn : List.find? (fun p => p.1 = k') o = none :=
        Option.not_isSome_iff_eq_none.mp (by simpa using hs)
      have hnone : objLookup o k' = none := by
        unfold objLookup
        rw [hfn]
        rfl
      simp [hnone, objLookup_cons]
    · have hk2 : ¬ k = k' := fun h => hk' h.symm
      have h1 : objLookup [(k, v)] k' = none := by
        simp [objLookup_cons, hk2, objLookup]
      simp [h1, hk', hk2]

/-! ## Registry conformance (C3, C4) -/

theorem validateBuilder_error_of_missing (bc : BuilderClassSpec) (k : String)
    (hmiss : ¬ (bc.hasSetTitle ∧ bc.hasSetContent ∧ bc.hasSetLayout ∧
                bc.hasSetStyle ∧ bc.hasGetResult)) :
    ∃ e, validateBuilder bc k = .error e := by
  unfold validateBuilder
  by_cases h1 : bc.hasSetTitle <;> by_cases h2 : bc.hasSetContent <;>
    by_cases h3 : bc.hasSetLayout <;> by_cases h4 : bc.hasSetStyle <;>
    by_cases h5 : bc.hasGetResult <;> simp_all

theorem alistGet_replace_self {α : Type} (m : List (String × α)) (k : String)
    (v : α) :
    (m.find? (fun p => p.1 = k)).isSome →
    alistGet (m.map (fun p => if p.1 = k then (k, v) else p)) k = some v := by
  induction m with
  | nil => intro hs; simp at hs
  | cons p l ih =>
      intro hs
      by_cases hp : p.1 = k
      · simp [alistGet, List.find?_cons, hp]
      · have hd : (decide (p.1 = k)) = false := by simp [hp]
        simp only [List.find?_cons, hd] at hs
        have hih := ih hs
        unfold alistGet at hih ⊢
        rw [List.map_cons, if_neg hp, List.find?_cons, hd]
        exact hih

theorem alistGet_alistSet_self {α : Type} (m : List (String × α)) (k : String)
    (v : α) : alistGet (alistSet m k v) k = some v := by
  unfold alistSet
  by_cases hs : (List.find? (fun p => p.1 = k) m).isSome
  · rw [if_pos hs]
    exact alistGet_replace_self m k v hs
  · rw [if_neg hs]
    have hfn : List.find? (fun p => p.1 = k) m = none :=
      Option.not_isSome_iff_eq_none.mp (by simpa using hs)
    unfold alistGet
    rw [List.find?_append, hfn]
    simp [List.find?_cons]

/-- **C3.** Registering, under a non-empty content-type key `k`, a
constructor whose instances lack at least one of the required
operations (`setTitle`, `setContent`, `setLayout`, `setStyle`,
`getResult`) raises a StructuralError (the registration call returns
an error, carrying no new registry state, so the registry is unchanged
for `k`); when `k` was not registered before, `hasBuilder k` is false
and both `getBuilder k` and `createBuilder k` raise a
ConfigurationError. -/
theorem registerBuilder_nonconforming_rejected
    (st : RegistryState) (k : String) (bc : BuilderClassSpec) (md : JObj) (c : Nat)
    (hk : k ≠ "")
    (hmiss : ¬ (bc.hasSetTitle ∧ bc.hasSetContent ∧ bc.hasSetLayout ∧
                bc.hasSetStyle ∧ bc.hasGetResult)) :
    (∃ e, registerBuilder st k bc md c = .error e) ∧
    (hasBuilder st k = false →
      (∃ e, getBuilder st k = .error e) ∧ (∃ e, createBuilder st k = .error e)) := by
  constructor
  · obtain ⟨e, he⟩ := validateBuilder_error_of_missing bc k hmiss
    refine ⟨e, ?_⟩
    unfold registerBuilder
    simp [hk, he, Bind.bind, Except.bind, Pure.pure, Except.pure]
  · intro h
    have hn : alistGet st.registry k = none := by
      unfold hasBuilder at h
      exact Option.not_isSome_iff_eq_none.mp (by simp [h])
    constructor
    · exact ⟨s!"No builder registered for slide type: {k}",
        by unfold getBuilder; rw [hn]⟩
    · exact ⟨s!"No builder registered for slide type: {k}",
        by unfold createBuilder getBuilder; rw [hn]⟩

/-- Witness for C3 at the empty registry, key `"invalid"` and a
constructor with no methods. -/
theorem registerBuilder_nonconforming_rejected_witness :
    (("invalid" : String) ≠ "" ∧
     ¬ (noMethodsBuilderClass.hasSetTitle ∧ noMethodsBuilderClass.hasSetContent ∧
        noMethodsBuilderClass.hasSetLayout ∧ noMethodsBuilderClass.hasSetStyle ∧
        noMethodsBuilderClass.hasGetResult)) ∧
    ((∃ e, registerBuilder ⟨[], []⟩ "invalid" noMethodsBuilderClass [] 0 = .error e) ∧
     (hasBuilder ⟨[], []⟩ "invalid" = false →
       (∃ e, getBuilder ⟨[], []⟩ "invalid" = .error e) ∧
       (∃ e, createBuilder ⟨[], []⟩ "invalid" = .error e))) :=
  ⟨⟨by decide, by decide⟩,
   registerBuilder_nonconforming_rejected ⟨[], []⟩ "invalid" noMethodsBuilderClass
     [] 0 (by decide) (by decide)⟩

/-- **C4 counterexample.** A constructor that inherits the abstract
base builder's setters without overriding them (every required
operation exists as a function and each setter, when invoked, throws
the base StructuralError — `inheritedBaseBuilderClass`) is NOT
rejected: `validateBuilder` only checks that the methods exist and its
probe loop swallows the thrown errors, so registration succeeds. -/
theorem registerBuilder_accepts_abstract_inheritor :
    (SlideBuilder.abstractSetTitle.isOk = false ∧
     SlideBuilder.abstractSetContent.isOk = false ∧
     SlideBuilder.abstractSetLayout.isOk = false ∧
     SlideBuilder.abstractSetStyle.isOk = false) ∧
    (inheritedBaseBuilderClass.setTitleThrows = true ∧
     inheritedBaseBuilderClass.setContentThrows = true ∧
     inheritedBaseBuilderClass.setLayoutThrows = true ∧
     inheritedBaseBuilderClass.setStyleThrows = true) ∧
    (registerBuilder ⟨[], []⟩ "partial" inheritedBaseBuilderClass [] 0).isOk = true ∧
    hasBuilder ⟨[("partial", inheritedBaseBuilderClass)], []⟩ "partial" = true := by
  decide

/-- **C4 (amended).** The Capability Registry accepts any constructor
whose instances expose all five required operations as functions,
regardless of whether the (inherited, throwing) base implementations
are the ones exposed: the conformance probe invokes the abstract
setters but ignores any error, so a constructor inheriting the base
setters without overriding them is accepted at registration time and
its partiality is only discovered at use time. -/
theorem registerBuilder_accepts_presence_only
    (st : RegistryState) (k : String) (bc : BuilderClassSpec) (md : JObj) (c : Nat)
    (hk : k ≠ "")
    (hall : bc.hasSetTitle ∧ bc.hasSetContent ∧ bc.hasSetLayout ∧
            bc.hasSetStyle ∧ bc.hasGetResult) :
    ∃ st2, registerBuilder st k bc md c = .ok st2 ∧ hasBuilder st2 k = true := by
  obtain ⟨h1, h2, h3, h4, h5⟩ := hall
  have hv : validateBuilder bc k = .ok () := by
    unfold validateBuilder
    simp [h1, h2, h3, h4, h5]
  have hreg : registerBuilder st k bc md c =
      .ok { registry := alistSet st.registry k bc,
            metadata := alistSet st.metadata k (objMerge
              [("name", oVal (objLookup md "name") (.jstr k)),
               ("description", oVal (objLookup md "description")
                  (.jstr s!"Builder for {k} slides")),
               ("category", oVal (objLookup md "category") (.jstr "standard")),
               ("version", oVal (objLookup md "version") (.jstr "1.0.0")),
               ("author", oVal (objLookup md "author") (.jstr "unknown")),
               ("tenantSpecific", oVal (objLookup md "tenantSpecific") (.jbool false)),
               ("supportedFeatures", oVal (objLookup md "supportedFeatures") (.jarr [])),
               ("registeredAt", .jstr (genTime c))] md) } := by
    unfold registerBuilder
    simp [hk, hv, Bind.bind, Except.bind, Pure.pure, Except.pure]
  exact ⟨_, hreg, by unfold hasBuilder; simp [alistGet_alistSet_self]⟩

/-- Witness for the amended C4: a class spec with all required
operations present and all probes throwing registers successfully. -/
theorem registerBuilder_accepts_presence_only_witness :
    (("conversation" : String) ≠ "" ∧
     (inheritedBaseBuilderClass.hasSetTitle ∧
      inheritedBaseBuilderClass.hasSetContent ∧
      inheritedBaseBuilderClass.hasSetLayout ∧
      inheritedBaseBuilderClass.hasSetStyle ∧
      inheritedBaseBuilderClass.hasGetResult)) ∧
    (∃ st2, registerBuilder ⟨[], []⟩ "conversation" inheritedBaseBuilderClass [] 0 =
        .ok st2 ∧ hasBuilder st2 "conversation" = true) :=
  ⟨⟨by decide, by decide⟩,
   registerBuilder_accepts_presence_only ⟨[], []⟩ "conversation"
     inheritedBaseBuilderClass [] 0 (by decide) (by decide)⟩

/-! ## Override resolution (C5) -/

/-- **C5.** Resolving `(k, T)` through the builder factory: a tenant
with a custom constructor `X` registered for `k` gets an instance of
`X`; a tenant with no override for `k` (or an unknown tenant) gets the
documented default (`TextSlideBuilder` for `"text"`,
`ChartSlideBuilder` for `"chart"`); when neither an override nor a
default builder exists for `k`, resolution raises a
ConfigurationError instead of returning silently. -/
theorem factory_override_resolution
    (ts : TenantRegistryState) (k tid : String) :
    (∀ t X, getTenant ts tid = some t →
        alistGet t.customBuilders k = some (some X) →
        factoryCreateBuilder ts k tid = .ok (some ⟨X⟩)) ∧
    ((getTenant ts tid = none ∨
      (∃ t, getTenant ts tid = some t ∧ alistGet t.customBuilders k = none)) →
      (factoryCreateBuilder ts k tid = factoryDefaultBuilder k ∧
       (k = "text" → factoryCreateBuilder ts k tid = .ok (some ⟨.textB⟩)) ∧
       (k = "chart" → factoryCreateBuilder ts k tid = .ok (some ⟨.chartB⟩)))) ∧
    ((getTenant ts tid = none ∨
      (∃ t, getTenant ts tid = some t ∧ alistGet t.customBuilders k = none)) →
      k ≠ "text" → k ≠ "chart" →
      ∃ e, factoryCreateBuilder ts k tid = .error e) := by
  refine ⟨?_, ?_, ?_⟩
  · intro t X ht hx
    have hh : t.hasCustomBuilder k = true := by
      unfold TenantConfiguration.hasCustomBuilder
      simp [hx]
    simp [factoryCreateBuilder, ht, hh, TenantConfiguration.getCustomBuilder, hx]
  · intro h
    have hdef : factoryCreateBuilder ts k tid = factoryDefaultBuilder k := by
      rcases h with hnone | ⟨t, ht, hx⟩
      · simp [factoryCreateBuilder, hnone]
      · have hh : t.hasCustomBuilder k = false := by
          unfold TenantConfiguration.hasCustomBuilder
          simp [hx]
        simp [factoryCreateBuilder, ht, hh]
    refine ⟨hdef, ?_, ?_⟩
    · intro hkt
      rw [hdef, hkt]
      rfl
    · intro hkc
      rw [hdef, hkc]
      rfl
  · intro h hkt hkc
    have hdef : factoryCreateBuilder ts k tid = factoryDefaultBuilder k := by
      rcases h with hnone | ⟨t, ht, hx⟩
      · simp [factoryCreateBuilder, hnone]
      · have hh : t.hasCustomBuilder k = false := by
          unfold TenantConfiguration.hasCustomBuilder
          simp [hx]
        simp [factoryCreateBuilder, ht, hh]
    rw [hdef]
    unfold factoryDefaultBuilder
    rw [if_neg hkt, if_neg hkc]
    by_cases hi : k = "infographic"
    · exact ⟨"InfographicSlideBuilder not yet implemented", by rw [if_pos hi]⟩
    · exact ⟨s!"Unknown slide type: {k}", by rw [if_neg hi]⟩

/-- Witness for C5: the overriding tenant resolves `"conversation"` to
its custom constructor, the override-free tenant resolves `"text"` to
the default, and an unknown content type raises. -/
theorem factory_override_resolution_witness :
    factoryCreateBuilder demoTenantRegistry "conversation" "acme" =
        .ok (some ⟨.customB "X"⟩) ∧
    factoryCreateBuilder demoTenantRegistry "text" "globex" =
        .ok (some ⟨.textB⟩) ∧
    (∃ e, factoryCreateBuilder demoTenantRegistry "video" "globex" = .error e) := by
  refine ⟨?_, ?_, ?_⟩
  · exact (factory_override_resolution demoTenantRegistry "conversation" "acme").1
      (TenantConfiguration.make acmeConfig) (.customB "X") (by decide) (by decide)
  · exact ((factory_override_resolution demoTenantRegistry "text" "globex").2.1
      (Or.inr ⟨TenantConfiguration.make globexConfig, by decide, by decide⟩)).2.1 rfl
  · exact (factory_override_resolution demoTenantRegistry "video" "globex").2.2
      (Or.inr ⟨TenantConfiguration.make globexConfig, by decide, by decide⟩)
      (by decide) (by decide)

/-! ## Referential integrity at insertion (C1) -/

theorem messages_addMessage (d : DialogueContent) (m : Message) (c : Nat) :
    (d.addMessage m c).messages = sortMessages (d.messages ++ [m]) := by
  unfold DialogueContent.addMessage DialogueContent.calculateDuration
    DialogueContent.touch DialogueContent.updateCounts
  cases h : (sortMessages (d.messages ++ [m])).getLast? <;> simp [h]

theorem constructedMessage_speakerId (sp : Speaker) (text : String)
    (opts : MsgOptions) (n c : Nat) :
    (DialogueBuilderState.constructedMessage sp text opts n c).speakerId = sp.id := by
  cases h : opts.animation <;>
    simp [DialogueBuilderState.constructedMessage, h, Message.setAnimation,
      Message.updateCharacterCount]

theorem constructedMessage_text (sp : Speaker) (text : String)
    (opts : MsgOptions) (n c : Nat) :
    (DialogueBuilderState.constructedMessage sp text opts n c).text = text := by
  cases h : opts.animation <;>
    simp [DialogueBuilderState.constructedMessage, h, Message.setAnimation,
      Message.updateCharacterCount]

/-- **C1.** `addMessage(speakerName, text, options)` enforces
referential integrity at insertion time, inside the same builder's own
dialogue aggregate: when no speaker with that name is present there,
the call throws immediately (the error return carries no state, so the
message list is unchanged — the turn is not added); when such a
speaker is present, the call succeeds and the appended message carries
exactly the id of the speaker found in that same aggregate. -/
theorem addMessage_referential_integrity
    (st : DialogueBuilderState) (name text : String) (opts : MsgOptions) :
    (st.dialogueContent.getSpeakerByName name = none →
      st.addMessage name text opts =
        .error s!"Speaker \x22{name}\x22 not found. Add speaker first.") ∧
    (∀ sp, st.dialogueContent.getSpeakerByName name = some sp →
      sp ∈ st.dialogueContent.speakers ∧
      ∃ st2, st.addMessage name text opts = .ok st2 ∧
        st2.dialogueContent.messages =
          sortMessages (st.dialogueContent.messages ++
            [DialogueBuilderState.constructedMessage sp text opts
              st.dialogueContent.messages.length st.ctr]) ∧
        (DialogueBuilderState.constructedMessage sp text opts
          st.dialogueContent.messages.length st.ctr).speakerId = sp.id ∧
        (DialogueBuilderState.constructedMessage sp text opts
          st.dialogueContent.messages.length st.ctr).text = text) := by
  constructor
  · intro h
    unfold DialogueBuilderState.addMessage
    rw [h]
  · intro sp h
    constructor
    · unfold DialogueContent.getSpeakerByName at h
      exact List.mem_of_find?_eq_some h
    · refine ⟨DialogueBuilderState.addBuildStep
        { st with
            dialogueContent := st.dialogueContent.addMessage
              (DialogueBuilderState.constructedMessage sp text opts
                st.dialogueContent.messages.length st.ctr) (st.ctr + 2)
            ctr := st.ctr + 3 } "addMessage", ?_, ?_,
        constructedMessage_speakerId sp text opts _ _,
        constructedMessage_text sp text opts _ _⟩
      · unfold DialogueBuilderState.addMessage
        rw [h]
      · simp [DialogueBuilderState.addBuildStep, messages_addMessage]

/-- Witness for C1: after adding Kobe Bryant, adding a turn for the
unknown name "NOBODY" throws, and adding a turn for "KOBE BRYANT"
succeeds, the appended message carrying the found speaker's id. -/
theorem addMessage_referential_integrity_witness :
    ((DialogueBuilderState.new 0).addKobeBryant.addMessage "NOBODY" "hi" {} =
      .error s!"Speaker \x22NOBODY\x22 not found. Add speaker first.") ∧
    (Speaker.createKobeBryant 2 ∈
        (DialogueBuilderState.new 0).addKobeBryant.dialogueContent.speakers ∧
     ∃ st2,
       (DialogueBuilderState.new 0).addKobeBryant.addMessage "KOBE BRYANT" "hi" {} =
         .ok st2 ∧
       st2.dialogueContent.messages =
         sortMessages
           ((DialogueBuilderState.new 0).addKobeBryant.dialogueContent.messages ++
             [DialogueBuilderState.constructedMessage (Speaker.createKobeBryant 2)
               "hi" {}
               (DialogueBuilderState.new 0).addKobeBryant.dialogueContent.messages.length
               (DialogueBuilderState.new 0).addKobeBryant.ctr]) ∧
       (DialogueBuilderState.constructedMessage (Speaker.createKobeBryant 2) "hi" {}
         (DialogueBuilderState.new 0).addKobeBryant.dialogueContent.messages.length
         (DialogueBuilderState.new 0).addKobeBryant.ctr).speakerId =
           (Speaker.createKobeBryant 2).id ∧
       (DialogueBuilderState.constructedMessage (Speaker.createKobeBryant 2) "hi" {}
         (DialogueBuilderState.new 0).addKobeBryant.dialogueContent.messages.length
         (DialogueBuilderState.new 0).addKobeBryant.ctr).text = "hi") :=
  ⟨(addMessage_referential_integrity
      (DialogueBuilderState.new 0).addKobeBryant "NOBODY" "hi" {}).1 (by decide),
   (addMessage_referential_integrity
      (DialogueBuilderState.new 0).addKobeBryant "KOBE BRYANT" "hi" {}).2
     (Speaker.createKobeBryant 2) (by decide)⟩

/-! ## Dialogue duration (C8) -/

/-- **C8 counterexample.** On a reachable dialogue with two turns
(timestamps 0 and 2000 ms, texts of 13 and 6 characters),
`calculateDuration` yields `2000 + 6*50 = 2300` ms — the last turn's
timestamp plus its reading time — while the spec's sum over all turns
of offset plus reading time yields `(0+650) + (2000+300) = 2950` ms:
the computed duration is not that sum. -/
theorem calculateDuration_not_sum_over_turns :
    (((DialogueBuilderState.new 0).addKobeBryant.addMessage
        "KOBE BRYANT" "hello company" {}).bind
      (fun st => st.addMessage "KOBE BRYANT" "yes go" {})).map
      (fun st =>
        ((st.dialogueContent.calculateDuration).duration,
         specSumDuration st.dialogueContent.messages)) =
      .ok (2300, 2950) ∧ (2300 : Int) ≠ 2950 := by
  constructor
  · rfl
  · decide

/-- **C8 (amended).** `calculateDuration` computes 0 for an empty turn
list, and otherwise the last (sorted) turn's display offset plus an
estimated reading time for that last turn alone (character count × the
fixed 50 ms/character reading-rate constant) — not a sum over all
turns. -/
theorem calculateDuration_from_last_message (d : DialogueContent) :
    (d.messages = [] → (d.calculateDuration).duration = 0) ∧
    (∀ last, d.messages.getLast? = some last →
      (d.calculateDuration).duration =
        last.timestamp + (last.text.length : Int) * 50) := by
  constructor
  · intro h
    unfold DialogueContent.calculateDuration
    rw [h]
    rfl
  · intro last h
    unfold DialogueContent.calculateDuration
    rw [h]

/-- Witness for the amended C8: the empty dialogue has duration 0, and
a one-turn dialogue (timestamp 0, six characters) has duration 300 ms. -/
theorem calculateDuration_from_last_message_witness :
    ((DialogueContent.new 0).messages = [] ∧
     ((DialogueContent.new 0).calculateDuration).duration = 0) ∧
    (∃ st2, (DialogueBuilderState.new 0).addKobeBryant.addMessage
        "KOBE BRYANT" "yes go" {} = .ok st2 ∧
      st2.dialogueContent.messages.getLast? =
        some (DialogueBuilderState.constructedMessage (Speaker.createKobeBryant 2)
          "yes go" {} 0 5) ∧
      (st2.dialogueContent.calculateDuration).duration = 0 + (6 : Int) * 50) := by
  constructor
  · exact ⟨rfl, (calculateDuration_from_last_message (DialogueContent.new 0)).1 rfl⟩
  · obtain ⟨hmem, st2, hok, hmsgs, hsid, htext⟩ :=
      (addMessage_referential_integrity (DialogueBuilderState.new 0).addKobeBryant
        "KOBE BRYANT" "yes go" {}).2 (Speaker.createKobeBryant 2) (by decide)
    refine ⟨st2, hok, ?_, ?_⟩
    · rw [hmsgs]
      decide
    · have hlast : st2.dialogueContent.messages.getLast? =
          some (DialogueBuilderState.constructedMessage (Speaker.createKobeBryant 2)
            "yes go" {} 0 5) := by
        rw [hmsgs]
        decide
      rw [(calculateDuration_from_last_message st2.dialogueContent).2 _ hlast]
      decide

/-! ## Serialization round trip (C2) -/

/-- **C2 counterexample.** A document reachable through the chart
builder has a layout record without the constructor's default keys
(`ChartSlideBuilder.setLayout` rebuilds the layout from the caller's
object alone); `Slide.fromJSON` spread-merges the stored layout over a
fresh slide's defaults, so `Slide.fromJSON(D.toJSON())` re-adds
`type`/`columns`/`alignment`/`spacing` and is not field-for-field
equal to `D`. -/
theorem slide_roundtrip_fails_on_chart_slide :
    objLookup chartDemoSlide.layout "type" = none ∧
    objLookup (Slide.fromJSON chartDemoSlide.toJSON 9).layout "type" =
      some (.jstr "default") ∧
    slideEquiv (Slide.fromJSON chartDemoSlide.toJSON 9) chartDemoSlide = false := by
  decide

/-- **C2 (amended).** `Slide.fromJSON(D.toJSON())` is field-for-field
equal to `D` for every document whose id is nonempty, whose type is
null or a nonempty string, and whose layout, style, metadata, assets
and animations each still contain every key of the fresh-slide
defaults that deserialization spread-merges underneath them (documents
built by `ChartSlideBuilder`/`TextSlideBuilder` style setters can drop
default keys and then fail the round trip, as the counterexample
shows); and when the `validation` field is absent from the input,
deserialization yields the default validation record. -/
theorem slide_roundtrip (D : Slide) (c : Nat)
    (hid : D.id ≠ "")
    (hty : ∀ s, D.type = some s → s ≠ "")
    (hl : ∀ k ∈ objKeys defaultLayout, (objLookup D.layout k).isSome)
    (hs : ∀ k ∈ objKeys defaultStyle, (objLookup D.style k).isSome)
    (hm : ∀ k ∈ objKeys (defaultMetadata c), (objLookup D.metadata k).isSome)
    (ha : ∀ k ∈ objKeys defaultAssets, (objLookup D.assets k).isSome)
    (han : ∀ k ∈ objKeys defaultAnimations, (objLookup D.animations k).isSome) :
    slideEquiv (Slide.fromJSON D.toJSON c) D = true ∧
    (∀ data : SlideJSON, data.validation = none →
      (Slide.fromJSON data c).validation = ValidationRec.initial) := by
  constructor
  · unfold slideEquiv Slide.fromJSON Slide.toJSON Slide.new
    simp only [decide_eq_true_eq]
    refine ⟨?_, ?_, by trivial, by trivial, objEquiv_refl _, ?_, ?_, ?_, ?_, ?_,
      by trivial⟩
    · simp [hid]
    · cases hD : D.type with
      | none => rfl
      | some s => simp [hty s hD]
    · exact objEquiv_of_lookup_eq _ _
        (fun k => objLookup_merge_covered defaultLayout D.layout k hl)
    · exact objEquiv_of_lookup_eq _ _
        (fun k => objLookup_merge_covered defaultStyle D.style k hs)
    · exact objEquiv_of_lookup_eq _ _
        (fun k => objLookup_merge_covered (defaultMetadata c) D.metadata k hm)
    · exact objEquiv_of_lookup_eq _ _
        (fun k => objLookup_merge_covered defaultAssets D.assets k ha)
    · exact objEquiv_of_lookup_eq _ _
        (fun k => objLookup_merge_covered defaultAnimations D.animations k han)
  · intro data hdv
    unfold Slide.fromJSON
    rw [hdv]
    rfl

/-- Witness for the amended C2: a fresh slide (all default keys
present) round-trips exactly, and an input without a validation record
deserializes to the default one. -/
theorem slide_roundtrip_witness :
    ((Slide.new 7).id ≠ "" ∧
     (∀ k ∈ objKeys defaultLayout, (objLookup (Slide.new 7).layout k).isSome)) ∧
    slideEquiv (Slide.fromJSON (Slide.new 7).toJSON 9) (Slide.new 7) = true ∧
    (∀ data : SlideJSON, data.validation = none →
      (Slide.fromJSON data 9).validation = ValidationRec.initial) :=
  ⟨⟨by decide, by decide⟩,
   slide_roundtrip (Slide.new 7) 9 (by decide)
     (by intro s h; simp [Slide.new] at h)
     (by decide) (by decide) (by decide) (by decide) (by decide)⟩

/-! ## Validation-record invariant (C9) -/

theorem vIff_addError (s : Slide) (m : String) (c : Nat) :
    validIffErrorsEmpty (s.addValidationError m c) := by
  unfold validIffErrorsEmpty Slide.addValidationError
  simp

theorem vIff_addWarning (s : Slide) (m : String) (c : Nat)
    (h : validIffErrorsEmpty s) :
    validIffErrorsEmpty (s.addValidationWarning m c) := by
  unfold validIffErrorsEmpty Slide.addValidationWarning
  simpa using h

theorem vIff_clear (s : Slide) : validIffErrorsEmpty s.clearValidation := by
  unfold validIffErrorsEmpty Slide.clearValidation
  simp

theorem vIff_addErrorsWith (msgs : List String) (sc : Slide × Nat) (pfx : String)
    (h : validIffErrorsEmpty sc.1) :
    validIffErrorsEmpty (addErrorsWith sc pfx msgs).1 := by
  induction msgs generalizing sc with
  | nil => exact h
  | cons m ms ih =>
      unfold addErrorsWith at ih ⊢
      rw [List.foldl_cons]
      exact ih (sc.1.addValidationError (pfx ++ m) sc.2, sc.2 + 1)
        (vIff_addError sc.1 (pfx ++ m) sc.2)

theorem vIff_addWarningsWith (msgs : List String) (sc : Slide × Nat) (pfx : String)
    (h : validIffErrorsEmpty sc.1) :
    validIffErrorsEmpty (addWarningsWith sc pfx msgs).1 := by
  induction msgs generalizing sc with
  | nil => exact h
  | cons m ms ih =>
      unfold addWarningsWith at ih ⊢
      rw [List.foldl_cons]
      exact ih (sc.1.addValidationWarning (pfx ++ m) sc.2, sc.2 + 1)
        (vIff_addWarning sc.1 (pfx ++ m) sc.2 h)

theorem vIff_titleCheck (p : Slide × Nat) (h : validIffErrorsEmpty p.1) :
    validIffErrorsEmpty (titleCheckStep p).1 := by
  unfold titleCheckStep
  split
  · exact vIff_addError _ _ _
  · exact h

theorem vIff_typeCheck (p : Slide × Nat) (h : validIffErrorsEmpty p.1) :
    validIffErrorsEmpty (typeCheckStep p).1 := by
  unfold typeCheckStep
  cases htype : p.1.type with
  | some t =>
      by_cases ht : t = "" <;> simp only [ht, if_true, if_false]
      · exact vIff_addError _ _ _
      · simpa [ht] using h
  | none => exact vIff_addError _ _ _

theorem vIff_contentCheck (p : Slide × Nat) (h : validIffErrorsEmpty p.1) :
    validIffErrorsEmpty (contentCheckStep p).1 := by
  unfold contentCheckStep
  split
  · exact vIff_addWarning _ _ _ h
  · exact h

theorem vIff_runUniversal (s : Slide) (c : Nat) :
    validIffErrorsEmpty (runUniversalValidation s c).1 := by
  unfold runUniversalValidation
  exact vIff_contentCheck _ (vIff_typeCheck _ (vIff_titleCheck _ (vIff_clear s)))

theorem vIff_ite (P : Prop) [Decidable P] (a b : Slide × Nat)
    (ha : validIffErrorsEmpty a.1) (hb : validIffErrorsEmpty b.1) :
    validIffErrorsEmpty (if P then a else b).1 := by
  split
  · exact ha
  · exact hb

theorem vIff_customValidation (st : DialogueBuilderState)
    (h : validIffErrorsEmpty st.slide) :
    validIffErrorsEmpty st.customValidation.slide := by
  unfold DialogueBuilderState.customValidation
  exact vIff_ite _ _ _
    (vIff_addWarningsWith _ _ _ (vIff_ite _ _ _ h (vIff_addErrorsWith _ _ _ h)))
    (vIff_addError _ _ _)

theorem vIff_validate (st : DialogueBuilderState) :
    validIffErrorsEmpty st.validate.slide := by
  unfold DialogueBuilderState.validate
  exact vIff_customValidation _ (vIff_runUniversal st.slide st.ctr)

theorem validGuard_step (st : DialogueBuilderState) (op : ValidationOp)
    (h : st.slide.validation.isValid = true → st.slide.validation.errors = []) :
    (applyValidationOp st op).slide.validation.isValid = true →
      (applyValidationOp st op).slide.validation.errors = [] := by
  cases op with
  | addError m =>
      intro hv
      simp [applyValidationOp, Slide.addValidationError] at hv
  | addWarning m =>
      intro hv
      simpa [applyValidationOp, Slide.addValidationWarning] using
        h (by simpa [applyValidationOp, Slide.addValidationWarning] using hv)
  | clear =>
      intro _
      simp [applyValidationOp, Slide.clearValidation]
  | validatePass =>
      exact fun hv => (vIff_validate st).mp hv

theorem validGuard_run (ops : List ValidationOp) (st : DialogueBuilderState)
    (h : st.slide.validation.isValid = true → st.slide.validation.errors = []) :
    (runValidationOps st ops).slide.validation.isValid = true →
      (runValidationOps st ops).slide.validation.errors = [] := by
  induction ops generalizing st with
  | nil => exact h
  | cons op ops ih =>
      unfold runValidationOps at ih ⊢
      rw [List.foldl_cons]
      exact ih (applyValidationOp st op) (validGuard_step st op h)

/-- **C9 counterexample.** A freshly constructed document — the state
reached by the empty sequence of validation operations — has
`isValid = false` together with an empty error list, so "isValid iff
the error list is empty" does not hold in every reachable state. -/
theorem validation_iff_fails_on_fresh_document :
    (runValidationOps (DialogueBuilderState.new 0) []).slide.validation.errors = [] ∧
    (runValidationOps (DialogueBuilderState.new 0) []).slide.validation.isValid = false ∧
    ¬ validIffErrorsEmpty (runValidationOps (DialogueBuilderState.new 0) []).slide := by
  refine ⟨rfl, rfl, fun h => ?_⟩
  have := h.mpr rfl
  simp [runValidationOps, DialogueBuilderState.new, Slide.new,
    ValidationRec.initial] at this

/-- **C9 (amended).** Over the validation operations (construction,
`addValidationError`, `addValidationWarning`, `clearValidation`, the
builder's `validate` pass): in every state reachable from a fresh
document, `isValid = true` implies the error list is empty; the full
equivalence "isValid iff no errors" is established by every
`clearValidation` and every `validate` pass and preserved by every
validation operation thereafter (only the freshly constructed
document, with `isValid = false` and no errors, breaks it); and each
`validate` pass discards all previous errors and warnings — its
resulting validation record does not depend on the prior one. -/
theorem validation_isValid_iff_errors :
    (∀ (c : Nat) (ops : List ValidationOp),
      (runValidationOps (DialogueBuilderState.new c) ops).slide.validation.isValid = true →
      (runValidationOps (DialogueBuilderState.new c) ops).slide.validation.errors = []) ∧
    (∀ st : DialogueBuilderState,
      validIffErrorsEmpty (applyValidationOp st .clear).slide ∧
      validIffErrorsEmpty (applyValidationOp st .validatePass).slide) ∧
    (∀ (st : DialogueBuilderState) (op : ValidationOp),
      validIffErrorsEmpty st.slide →
      validIffErrorsEmpty (applyValidationOp st op).slide) ∧
    (∀ (st : DialogueBuilderState) (v1 v2 : ValidationRec),
      ({ st with slide := { st.slide with validation := v1 } }).validate.slide.validation =
        ({ st with slide := { st.slide with validation := v2 } }).validate.slide.validation) := by
  refine ⟨?_, ?_, ?_, ?_⟩
  · intro c ops
    exact validGuard_run ops (DialogueBuilderState.new c) (fun hv => by
      simp [DialogueBuilderState.new, Slide.new, ValidationRec.initial] at hv)
  · intro st
    exact ⟨vIff_clear st.slide, vIff_validate st⟩
  · intro st op h
    cases op with
    | addError m => exact vIff_addError _ _ _
    | addWarning m => exact vIff_addWarning _ _ _ h
    | clear => exact vIff_clear _
    | validatePass => exact vIff_validate st
  · intro st v1 v2
    rfl

/-- Witness for the amended C9 at concrete states: a cleared fresh
document satisfies the equivalence, a validate pass establishes it,
adding an error preserves it, and the validate pass on two different
prior validation records yields the same record. -/
theorem validation_isValid_iff_errors_witness :
    ((runValidationOps (DialogueBuilderState.new 0) [.clear]).slide.validation.isValid = true →
      (runValidationOps (DialogueBuilderState.new 0) [.clear]).slide.validation.errors = []) ∧
    validIffErrorsEmpty
      (applyValidationOp (DialogueBuilderState.new 0) .clear).slide ∧
    (validIffErrorsEmpty (applyValidationOp (DialogueBuilderState.new 0) .clear).slide →
      validIffErrorsEmpty
        (applyValidationOp (applyValidationOp (DialogueBuilderState.new 0) .clear)
          (.addError "boom")).slide) ∧
    ({ DialogueBuilderState.new 0 with slide :=
        { (DialogueBuilderState.new 0).slide with
            validation := ⟨false, [⟨"stale", "t0"⟩], []⟩ } }).validate.slide.validation =
      ({ DialogueBuilderState.new 0 with slide :=
          { (DialogueBuilderState.new 0).slide with
              validation := ValidationRec.initial } }).validate.slide.validation :=
  ⟨validation_isValid_iff_errors.1 0 [.clear],
   (validation_isValid_iff_errors.2.1 (DialogueBuilderState.new 0)).1,
   fun h => validation_isValid_iff_errors.2.2.1
     (applyValidationOp (DialogueBuilderState.new 0) .clear) (.addError "boom") h,
   validation_isValid_iff_errors.2.2.2 (DialogueBuilderState.new 0)
     ⟨false, [⟨"stale", "t0"⟩], []⟩ ValidationRec.initial⟩

/-! ## Content and asset bookkeeping through the advanced sequence
(C6, C7, C10) -/

theorem content_pair_ite (P : Prop) [Decidable P] (a b : Slide × Nat)
    (X : JObj) (ha : a.1.content = X) (hb : b.1.content = X) :
    (if P then a else b).1.content = X := by
  split
  · exact ha
  · exact hb

theorem content_addErrorsWith (msgs : List String) (sc : Slide × Nat)
    (pfx : String) : (addErrorsWith sc pfx msgs).1.content = sc.1.content := by
  induction msgs generalizing sc with
  | nil => rfl
  | cons m ms ih =>
      unfold addErrorsWith at ih ⊢
      rw [List.foldl_cons]
      exact ih (sc.1.addValidationError (pfx ++ m) sc.2, sc.2 + 1)

theorem content_addWarningsWith (msgs : List String) (sc : Slide × Nat)
    (pfx : String) : (addWarningsWith sc pfx msgs).1.content = sc.1.content := by
  induction msgs generalizing sc with
  | nil => rfl
  | cons m ms ih =>
      unfold addWarningsWith at ih ⊢
      rw [List.foldl_cons]
      exact ih (sc.1.addValidationWarning (pfx ++ m) sc.2, sc.2 + 1)

theorem content_titleCheck (p : Slide × Nat) :
    (titleCheckStep p).1.content = p.1.content := by
  unfold titleCheckStep
  exact content_pair_ite _ _ _ _ rfl rfl

theorem content_typeCheck (p : Slide × Nat) :
    (typeCheckStep p).1.content = p.1.content := by
  unfold typeCheckStep
  cases p.1.type with
  | some t => exact content_pair_ite _ _ _ _ rfl rfl
  | none => rfl

theorem content_contentCheck (p : Slide × Nat) :
    (contentCheckStep p).1.content = p.1.content := by
  unfold contentCheckStep
  exact content_pair_ite _ _ _ _ rfl rfl

theorem content_runUniversal (s : Slide) (c : Nat) :
    (runUniversalValidation s c).1.content = s.content := by
  unfold runUniversalValidation
  rw [content_contentCheck, content_typeCheck, content_titleCheck]
  rfl

theorem content_customValidation (st : DialogueBuilderState) :
    st.customValidation.slide.content = st.slide.content := by
  unfold DialogueBuilderState.customValidation
  refine content_pair_ite _ _ _ _ ?_ ?_
  · rw [content_addWarningsWith]
    exact content_pair_ite _ _ _ _ rfl (content_addErrorsWith _ _ _)
  · show (addWarningsWith _ _ _).1.content = _
    rw [content_addWarningsWith]
    exact content_pair_ite _ _ _ _ rfl (content_addErrorsWith _ _ _)

theorem content_validate (st : DialogueBuilderState) :
    st.validate.slide.content = st.slide.content := by
  unfold DialogueBuilderState.validate
  rw [content_customValidation]
  exact content_runUniversal st.slide st.ctr

theorem content_finalize (st : DialogueBuilderState) :
    st.finalize.slide.content =
      finalizeContent st.dialogueContent.calculateDuration := rfl

theorem getResult_content_of_empty (st : DialogueBuilderState)
    (h : st.slide.content = []) :
    (st.getResult).1.content =
      finalizeContent st.dialogueContent.calculateDuration := by
  unfold DialogueBuilderState.getResult
  rw [h]
  show ((DialogueBuilderState.finalize st).validate).slide.content = _
  rw [content_validate, content_finalize]

theorem content_setSubtitle (st : DialogueBuilderState) (s : String) :
    (st.setSubtitle s).slide.content = st.slide.content := rfl

theorem content_setLayout (st : DialogueBuilderState) (l : DLayoutInput) :
    (st.setLayout l).slide.content = st.slide.content := rfl

theorem content_setStyle (st : DialogueBuilderState) (s : DStyleInput) :
    (st.setStyle s).slide.content = st.slide.content := rfl

theorem content_setAnimations (st : DialogueBuilderState) (a : JObj) :
    (st.setAnimations a).slide.content = st.slide.content := rfl

theorem content_advSubtitleStage (sd : SlideData) (b : DialogueBuilderState) :
    (advSubtitleStage sd b).slide.content = b.slide.content := by
  unfold advSubtitleStage
  cases hsub : sd.subtitle with
  | some s => by_cases hs : s = "" <;> simp [hs, content_setSubtitle]
  | none => rfl

theorem content_advLayoutStage (ctx : TenantContext) (sd : SlideData)
    (b : DialogueBuilderState) :
    (advLayoutStage ctx sd b).slide.content = b.slide.content := by
  unfold advLayoutStage
  cases ctx.layoutStrategy with
  | some strat => rfl
  | none => cases sd.layout <;> rfl

theorem content_advStyleStage (ctx : TenantContext) (sd : SlideData)
    (b : DialogueBuilderState) :
    (advStyleStage ctx sd b).slide.content = b.slide.content := by
  unfold advStyleStage
  cases ctx.styleStrategy with
  | some s => rfl
  | none => cases sd.style <;> rfl

theorem content_advAnimStage (sd : SlideData) (b : DialogueBuilderState) :
    (advAnimStage sd b).slide.content = b.slide.content := by
  unfold advAnimStage
  cases sd.animations <;> rfl

theorem assetsArrays_default : assetsArrays defaultAssets := by
  intro k v h
  unfold defaultAssets objLookup at h
  by_cases h1 : "images" = k <;> by_cases h2 : "icons" = k <;>
    by_cases h3 : "fonts" = k <;>
    simp [List.find?_cons, h1, h2, h3] at h <;>
    exact ⟨[], h.symm⟩

theorem assetsArrays_objSet (o : JObj) (k : String) (xs : List JVal)
    (h : assetsArrays o) : assetsArrays (objSet o k (.jarr xs)) := by
  intro k' v hv
  rw [objLookup_objSet] at hv
  by_cases hk : k' = k
  · rw [if_pos hk] at hv
    exact ⟨xs, (Option.some.injEq _ _).mp hv.symm ▸ rfl⟩
  · rw [if_neg hk] at hv
    exact h k' v hv

theorem asArr_jarr (xs : List JVal) : (JVal.jarr xs).asArr = some xs := by
  induction xs with
  | nil => rfl
  | cons x t ih => simp [JVal.jarr, JVal.asArr, ih]

theorem jTruthy_jarr_cons (x : JVal) (xs : List JVal) :
    jTruthy (JVal.jarr (x :: xs)) = true := rfl

theorem addAsset_ok (st : DialogueBuilderState) (ty : String) (a : JVal)
    (h : assetsArrays st.slide.assets) :
    ∃ st2, st.addAsset ty a = .ok st2 ∧
      assetsArrays st2.slide.assets ∧
      st2.slide.content = st.slide.content ∧
      st2.dialogueContent = st.dialogueContent := by
  unfold DialogueBuilderState.addAsset
  cases hl : objLookup st.slide.assets ty with
  | none =>
      exact ⟨_, rfl, assetsArrays_objSet _ _ ([] ++ [a]) h, rfl, rfl⟩
  | some v =>
      obtain ⟨xs, rfl⟩ := h ty v hl
      cases xs with
      | nil =>
          exact ⟨_, rfl, assetsArrays_objSet _ _ ([] ++ [a]) h, rfl, rfl⟩
      | cons x xs2 =>
          simp only [jTruthy_jarr_cons, if_true, asArr_jarr]
          exact ⟨_, rfl, assetsArrays_objSet _ _ ((x :: xs2) ++ [a]) h, rfl, rfl⟩

theorem assetsFold_inner_ok (as : List JVal) (ty : String)
    (b : DialogueBuilderState) (h : assetsArrays b.slide.assets) :
    ∃ b2, as.foldlM (fun b a => b.addAsset ty a) b = .ok b2 ∧
      assetsArrays b2.slide.assets ∧
      b2.slide.content = b.slide.content ∧
      b2.dialogueContent = b.dialogueContent := by
  induction as generalizing b with
  | nil => exact ⟨b, rfl, h, rfl, rfl⟩
  | cons a as ih =>
      obtain ⟨b1, hb1, hinv, hc, hd⟩ := addAsset_ok b ty a h
      obtain ⟨b2, hb2, hinv2, hc2, hd2⟩ := ih b1 hinv
      refine ⟨b2, ?_, hinv2, hc2.trans hc, hd2.trans hd⟩
      rw [List.foldlM_cons, hb1]
      simpa [Bind.bind, Except.bind] using hb2

theorem assetsFold_outer_ok (entries : List (String × List JVal))
    (b : DialogueBuilderState) (h : assetsArrays b.slide.assets) :
    ∃ b2, entries.foldlM
        (fun b e => e.2.foldlM (fun b a => b.addAsset e.1 a) b) b = .ok b2 ∧
      assetsArrays b2.slide.assets ∧
      b2.slide.content = b.slide.content ∧
      b2.dialogueContent = b.dialogueContent := by
  induction entries generalizing b with
  | nil => exact ⟨b, rfl, h, rfl, rfl⟩
  | cons e es ih =>
      obtain ⟨b1, hb1, hinv, hc, hd⟩ := assetsFold_inner_ok e.2 e.1 b h
      obtain ⟨b2, hb2, hinv2, hc2, hd2⟩ := ih b1 hinv
      refine ⟨b2, ?_, hinv2, hc2.trans hc, hd2.trans hd⟩
      rw [List.foldlM_cons, hb1]
      simpa [Bind.bind, Except.bind] using hb2

theorem advAssetsStage_ok (sd : SlideData) (b : DialogueBuilderState)
    (h : assetsArrays b.slide.assets) :
    ∃ b2, advAssetsStage sd b = .ok b2 ∧
      b2.slide.content = b.slide.content ∧
      b2.dialogueContent = b.dialogueContent := by
  unfold advAssetsStage
  cases sd.assets with
  | none => exact ⟨b, rfl, rfl, rfl⟩
  | some entries =>
      obtain ⟨b2, hb2, _, hc, hd⟩ := assetsFold_outer_ok entries b h
      exact ⟨b2, hb2, hc, hd⟩

theorem content_reset (st : DialogueBuilderState) :
    (st.reset).slide.content = [] := rfl

theorem content_setTenantId (st : DialogueBuilderState) (v : JVal) :
    (st.setTenantId v).slide.content = st.slide.content := rfl

theorem content_setTitle (st : DialogueBuilderState) (t : String) :
    (st.setTitle t).slide.content = st.slide.content := rfl

theorem assets_setTenantId (st : DialogueBuilderState) (v : JVal) :
    (st.setTenantId v).slide.assets = st.slide.assets := rfl

theorem assets_setTitle (st : DialogueBuilderState) (t : String) :
    (st.setTitle t).slide.assets = st.slide.assets := rfl

theorem assets_setSubtitle (st : DialogueBuilderState) (s : String) :
    (st.setSubtitle s).slide.assets = st.slide.assets := rfl

theorem assets_advSubtitleStage (sd : SlideData) (b : DialogueBuilderState) :
    (advSubtitleStage sd b).slide.assets = b.slide.assets := by
  unfold advSubtitleStage
  cases hsub : sd.subtitle with
  | some s => by_cases hs : s = "" <;> simp [hs, assets_setSubtitle]
  | none => rfl

theorem assets_advLayoutStage (ctx : TenantContext) (sd : SlideData)
    (b : DialogueBuilderState) :
    (advLayoutStage ctx sd b).slide.assets = b.slide.assets := by
  unfold advLayoutStage
  cases ctx.layoutStrategy with
  | some strat => rfl
  | none => cases sd.layout <;> rfl

theorem assets_advStyleStage (ctx : TenantContext) (sd : SlideData)
    (b : DialogueBuilderState) :
    (advStyleStage ctx sd b).slide.assets = b.slide.assets := by
  unfold advStyleStage
  cases ctx.styleStrategy with
  | some s => rfl
  | none => cases sd.style <;> rfl

theorem assets_advAnimStage (sd : SlideData) (b : DialogueBuilderState) :
    (advAnimStage sd b).slide.assets = b.slide.assets := by
  unfold advAnimStage
  cases sd.animations <;> rfl

theorem content_setContent_ok (st : DialogueBuilderState)
    (x : DialogueContent ⊕ JVal) (st2 : DialogueBuilderState)
    (h : st.setContent x = .ok st2) :
    st2.slide.content = st.slide.content := by
  unfold DialogueBuilderState.setContent at h
  cases x with
  | inl dc =>
      cases h
      rfl
  | inr v => cases h

theorem assets_setContent_ok (st : DialogueBuilderState)
    (x : DialogueContent ⊕ JVal) (st2 : DialogueBuilderState)
    (h : st.setContent x = .ok st2) :
    st2.slide.assets = st.slide.assets := by
  unfold DialogueBuilderState.setContent at h
  cases x with
  | inl dc =>
      cases h
      rfl
  | inr v => cases h

theorem watermark_not_in_finalizeContent (dc : DialogueContent) :
    objLookup (finalizeContent dc) "watermark" = none := rfl

theorem content_tenantRuleStep (p : Slide × Nat) (r : TenantRule) :
    (tenantRuleStep p r).1.content = p.1.content := by
  unfold tenantRuleStep
  by_cases hr : r.hasValidate = true
  · simp only [hr, if_true]
    cases r.validate p.1 with
    | ok isValid => by_cases hv : isValid = true <;> simp [hv, Slide.addValidationError]
    | error e => simp [Slide.addValidationError]
  · simp [hr]

theorem content_rulesFold (rules : List TenantRule) (p : Slide × Nat) :
    (rules.foldl tenantRuleStep p).1.content = p.1.content := by
  induction rules generalizing p with
  | nil => rfl
  | cons r rs ih =>
      rw [List.foldl_cons]
      exact (ih (tenantRuleStep p r)).trans (content_tenantRuleStep p r)

theorem content_validateWithTenantRules (rules : List TenantRule) (s : Slide)
    (c : Nat) : (validateWithTenantRules s rules c).1.content = s.content := by
  unfold validateWithTenantRules
  exact content_rulesFold rules (s, c)

theorem assets_addBuildStep (st : DialogueBuilderState) (s : String) :
    (st.addBuildStep s).slide.assets = st.slide.assets := rfl

theorem addAsset_content_of_ok (st : DialogueBuilderState) (ty : String)
    (a : JVal) (st2 : DialogueBuilderState) (h : st.addAsset ty a = .ok st2) :
    st2.slide.content = st.slide.content ∧
      st2.dialogueContent = st.dialogueContent := by
  unfold DialogueBuilderState.addAsset at h
  repeat' split at h
  all_goals simp only at h
  all_goals repeat' split at h
  all_goals
    first
      | exact Except.noConfusion h
      | (injection h with h2
         subst h2
         exact ⟨rfl, rfl⟩)

theorem assetsFoldInner_content_of_ok (as : List JVal) (ty : String) :
    ∀ (b b2 : DialogueBuilderState),
      as.foldlM (fun b a => b.addAsset ty a) b = .ok b2 →
      b2.slide.content = b.slide.content ∧
        b2.dialogueContent = b.dialogueContent := by
  induction as with
  | nil =>
      intro b b2 h
      cases h
      exact ⟨rfl, rfl⟩
  | cons a as ih =>
      intro b b2 h
      rw [List.foldlM_cons] at h
      cases haa : b.addAsset ty a with
      | error e =>
          rw [haa] at h
          simp [Bind.bind, Except.bind] at h
      | ok b1 =>
          rw [haa] at h
          simp only [Bind.bind, Except.bind] at h
          obtain ⟨hc1, hd1⟩ := addAsset_content_of_ok b ty a b1 haa
          obtain ⟨hc2, hd2⟩ := ih b1 b2 h
          exact ⟨hc2.trans hc1, hd2.trans hd1⟩

theorem assetsFoldOuter_content_of_ok (entries : List (String × List JVal)) :
    ∀ (b b2 : DialogueBuilderState),
      entries.foldlM
        (fun b e => e.2.foldlM (fun b a => b.addAsset e.1 a) b) b = .ok b2 →
      b2.slide.content = b.slide.content ∧
        b2.dialogueContent = b.dialogueContent := by
  induction entries with
  | nil =>
      intro b b2 h
      cases h
      exact ⟨rfl, rfl⟩
  | cons e es ih =>
      intro b b2 h
      rw [List.foldlM_cons] at h
      cases haa : e.2.foldlM (fun b a => b.addAsset e.1 a) b with
      | error er =>
          rw [haa] at h
          simp [Bind.bind, Except.bind] at h
      | ok b1 =>
          rw [haa] at h
          simp only [Bind.bind, Except.bind] at h
          obtain ⟨hc1, hd1⟩ := assetsFoldInner_content_of_ok e.2 e.1 b b1 haa
          obtain ⟨hc2, hd2⟩ := ih b1 b2 h
          exact ⟨hc2.trans hc1, hd2.trans hd1⟩

theorem advAssetsStage_content_of_ok (sd : SlideData)
    (b b2 : DialogueBuilderState) (h : advAssetsStage sd b = .ok b2) :
    b2.slide.content = b.slide.content ∧
      b2.dialogueContent = b.dialogueContent := by
  unfold advAssetsStage at h
  cases hsd : sd.assets with
  | none =>
      rw [hsd] at h
      cases h
      exact ⟨rfl, rfl⟩
  | some entries =>
      rw [hsd] at h
      exact assetsFoldOuter_content_of_ok entries b b2 h

theorem content_addBuildStep' (st : DialogueBuilderState) (s : String) :
    (st.addBuildStep s).slide.content = st.slide.content := rfl

theorem advPreStage_content_of_ok (ds : DirectorState) (sd : SlideData)
    (ctx : TenantContext) (b8 : DialogueBuilderState)
    (h : advPreStage ds sd ctx = .ok b8) : b8.slide.content = [] := by
  unfold advPreStage at h
  cases hsc : sd.content with
  | inr v =>
      simp only [hsc, DialogueBuilderState.setContent, Bind.bind, Except.bind] at h
      exact Except.noConfusion h
  | inl dc =>
      simp only [hsc, DialogueBuilderState.setContent, Bind.bind, Except.bind] at h
      obtain ⟨hc, _⟩ := advAssetsStage_content_of_ok sd _ b8 h
      rw [hc, content_advAnimStage, content_advStyleStage, content_advLayoutStage]
      show (DialogueBuilderState.addBuildStep _ _).slide.content = []
      rw [content_addBuildStep']
      show (advSubtitleStage sd _).slide.content = []
      rw [content_advSubtitleStage, content_setTitle, content_setTenantId,
        content_reset]

theorem content_touch (s : Slide) (c : Nat) : (s.touch c).content = s.content :=
  rfl

theorem content_enhComplianceStep (ctx : TenantContext) (s : Slide) :
    (enhComplianceStep ctx s).content = s.content := by
  unfold enhComplianceStep
  cases ctx.complianceLevel with
  | none => rfl
  | some lvl => by_cases h : lvl = "" <;> simp [h]

theorem content_enhBrandingStep (ctx : TenantContext) (s : Slide) :
    (enhBrandingStep ctx s).content = s.content := by
  unfold enhBrandingStep
  cases ctx.branding with
  | none => rfl
  | some b => by_cases h : jTruthy b <;> simp [h]

theorem lookup_enhWatermarkStep (ctx : TenantContext) (s : Slide)
    (hw : ctx.requiresWatermark = true) (hwt : ctx.watermark ≠ "")
    (h0 : objLookup s.content "watermark" = none) :
    objLookup (enhWatermarkStep ctx s).content "watermark"
      = some (.jstr ctx.watermark) := by
  unfold enhWatermarkStep
  rw [if_pos (⟨hw, hwt⟩ : ctx.requiresWatermark = true ∧ ctx.watermark ≠ "")]
  rw [h0]
  show objLookup (objSet s.content "watermark" (.jstr ctx.watermark))
    "watermark" = _
  rw [objLookup_objSet, if_pos rfl]

theorem lookup_advPostStage_watermark (ctx : TenantContext) (r : Slide)
    (c : Nat) (hw : ctx.requiresWatermark = true) (hwt : ctx.watermark ≠ "")
    (h0 : objLookup r.content "watermark" = none) :
    objLookup (advPostStage ctx r c).1.content "watermark"
      = some (.jstr ctx.watermark) := by
  have hbase : objLookup (applyTenantEnhancements r ctx c).1.content "watermark"
      = some (.jstr ctx.watermark) := by
    show objLookup ((enhBrandingStep ctx (enhComplianceStep ctx
        (enhWatermarkStep ctx r))).touch c).content "watermark" = _
    rw [content_touch, content_enhBrandingStep, content_enhComplianceStep]
    exact lookup_enhWatermarkStep ctx r hw hwt h0
  unfold advPostStage
  cases hvr : ctx.validationRules with
  | none => simp only [hvr]; exact hbase
  | some rules =>
      simp only [hvr]
      rw [content_validateWithTenantRules]
      exact hbase
/-- **C7 counterexample**: the spec's watermark guarantee fails for a
tenant context that requires a watermark: a registered tenant with
`requiresWatermark: true` and no watermark text gets the constructor's
empty-string default, `applyTenantEnhancements`'s
`tenantContext.requiresWatermark && tenantContext.watermark` guard then
rejects the falsy empty string, and the advanced construction succeeds
with no watermark key on the resulting content at all. -/
theorem buildAdvancedSlide_drops_blank_watermark :
    blankWmCtx.requiresWatermark = true ∧
    ((buildAdvancedSlide demoDirector demoSlideData blankWmCtx).toOption.map
        (fun p => objLookup p.1.content "watermark") = some none) := by
  constructor
  · rfl
  · decide
/-- **C7** (amended): for every tenant context whose `requiresWatermark`
flag is set *and* whose configured watermark text is truthy (nonempty),
every successful advanced construction yields a slide whose content
carries that watermark text under the `watermark` key.  (The unamended
claim is refuted by `buildAdvancedSlide_drops_blank_watermark`: a
required watermark whose configured text defaulted to the empty string
is silently skipped.) -/
theorem buildAdvancedSlide_watermark (ds : DirectorState) (sd : SlideData)
    (ctx : TenantContext) (s : Slide) (ds2 : DirectorState)
    (hw : ctx.requiresWatermark = true) (hwt : ctx.watermark ≠ "")
    (h : buildAdvancedSlide ds sd ctx = .ok (s, ds2)) :
    objLookup s.content "watermark" = some (.jstr ctx.watermark) := by
  unfold buildAdvancedSlide at h
  cases hpre : advPreStage ds sd ctx with
  | error e =>
      rw [hpre] at h
      simp only [Bind.bind, Except.bind] at h
      exact Except.noConfusion h
  | ok b8 =>
      rw [hpre] at h
      simp only [Bind.bind, Except.bind, pure, Except.pure] at h
      injection h with h2
      have hs : (advPostStage ctx (b8.getResult).1 (b8.getResult).2.ctr).1 = s :=
        congrArg Prod.fst h2
      rw [← hs]
      refine lookup_advPostStage_watermark ctx _ _ hw hwt ?_
      rw [getResult_content_of_empty b8 (advPreStage_content_of_ok ds sd ctx b8 hpre)]
      exact watermark_not_in_finalizeContent _
/-- Witness for the amended C7 theorem: a concrete advanced
construction under a tenant context with a nonempty required watermark
plants `watermark: "CONFIDENTIAL"` on the resulting content. -/
theorem buildAdvancedSlide_watermark_witness :
    wmCtx.requiresWatermark = true ∧ wmCtx.watermark ≠ "" ∧
    ((buildAdvancedSlide demoDirector demoSlideData wmCtx).toOption.map
        (fun p => objLookup p.1.content "watermark")
      = some (some (.jstr "CONFIDENTIAL"))) := by
  refine ⟨rfl, by decide, ?_⟩
  obtain ⟨p, hp⟩ :
      ∃ p, buildAdvancedSlide demoDirector demoSlideData wmCtx = .ok p :=
    ⟨_, rfl⟩
  obtain ⟨s, ds2⟩ := p
  have hmain := buildAdvancedSlide_watermark demoDirector demoSlideData wmCtx
    s ds2 rfl (by decide) hp
  rw [hp]
  show some (objLookup s.content "watermark")
    = some (some (.jstr "CONFIDENTIAL"))
  rw [hmain]
  rfl
theorem slide_of_setDC (st : DialogueBuilderState) (dc : DialogueContent) :
    ({ st with dialogueContent := dc } : DialogueBuilderState).slide
      = st.slide := rfl

theorem assets_reset (st : DialogueBuilderState) :
    (st.reset).slide.assets = defaultAssets := rfl

theorem advPreStage_ok (ds : DirectorState) (sd : SlideData)
    (ctx : TenantContext) (dc : DialogueContent)
    (hsc : sd.content = .inl dc) :
    ∃ b8, advPreStage ds sd ctx = .ok b8 := by
  unfold advPreStage
  rw [hsc]
  simp only [DialogueBuilderState.setContent, Bind.bind, Except.bind]
  refine Exists.imp (fun b8 hb => hb.1) (advAssetsStage_ok sd _ ?_)
  rw [assets_advAnimStage, assets_advStyleStage, assets_advLayoutStage,
    assets_addBuildStep, slide_of_setDC, assets_advSubtitleStage,
    assets_setTitle, assets_setTenantId, assets_reset]
  exact assetsArrays_default

theorem buildAdvancedSlide_ok (ds : DirectorState) (sd : SlideData)
    (ctx : TenantContext) (dc : DialogueContent)
    (hsc : sd.content = .inl dc) :
    ∃ s ds2, buildAdvancedSlide ds sd ctx = .ok (s, ds2) ∧
      ds2.log = ds.log := by
  obtain ⟨b8, hb8⟩ := advPreStage_ok ds sd ctx dc hsc
  unfold buildAdvancedSlide
  rw [hb8]
  simp only [Bind.bind, Except.bind, pure, Except.pure]
  exact ⟨_, _, rfl, rfl⟩

theorem buildAdvancedSlide_err (ds : DirectorState) (sd : SlideData)
    (ctx : TenantContext) (v : JVal) (hsc : sd.content = .inr v) :
    buildAdvancedSlide ds sd ctx = .error contentErrMsg := by
  unfold buildAdvancedSlide advPreStage
  rw [hsc]
  simp only [DialogueBuilderState.setContent, Bind.bind, Except.bind]
  rfl

theorem batchFold_all_ok (ctx : TenantContext) (l : List SlideData) :
    ∀ (n : Nat) (res : List (Option Slide)) (ds : DirectorState),
      (∀ sd ∈ l, ∃ dc, sd.content = Sum.inl dc) →
      ∃ (ss : List Slide) (ds2 : DirectorState),
        (List.enumFrom n l).foldl (batchStep ctx) (res, ds)
          = (res ++ ss.map some, ds2) ∧
        ss.length = l.length ∧ ds2.log = ds.log := by
  induction l with
  | nil =>
      intro n res ds _
      exact ⟨[], ds, by simp, rfl, rfl⟩
  | cons sd l ih =>
      intro n res ds h
      obtain ⟨dc, hdc⟩ := h sd (List.mem_cons_self _ _)
      obtain ⟨s, ds', hok, hlog⟩ := buildAdvancedSlide_ok ds sd ctx dc hdc
      have hstep : batchStep ctx (res, ds) (n, sd) = (res ++ [some s], ds') := by
        unfold batchStep
        rw [hok]
      obtain ⟨ss, ds2, hfold, hlen, hlog2⟩ :=
        ih (n + 1) (res ++ [some s]) ds' (fun x hx => h x (List.mem_cons_of_mem _ hx))
      refine ⟨s :: ss, ds2, ?_, by simp [hlen], hlog2.trans hlog⟩
      rw [List.enumFrom_cons, List.foldl_cons, hstep, hfold]
      simp

theorem filterMap_id_map_some {α : Type} (l : List α) :
    (l.map some).filterMap id = l := by
  induction l with
  | nil => rfl
  | cons x t ih => simp [ih]

theorem buildMultipleSlides_eq (ds : DirectorState) (inputs : List SlideData)
    (ctx : TenantContext) :
    buildMultipleSlides ds inputs ctx
      = ((inputs.enum.foldl (batchStep ctx) ([], ds)).1.filterMap id,
         (inputs.enum.foldl (batchStep ctx) ([], ds)).2) := rfl
/-- **C6**: batch construction with exactly one raising input does not
raise (it is a total function), returns the N−1 successfully built
documents (here: a list of slides splitting as the builds of the
prefix and of the suffix, the failed input contributing nothing), and
appends exactly one console-error record identifying the failed input
by its index and the thrown message. -/
theorem buildMultipleSlides_partial_failure (ds : DirectorState)
    (ctx : TenantContext) (l1 l2 : List SlideData) (bad : SlideData)
    (v : JVal) (hbad : bad.content = .inr v)
    (h1 : ∀ sd ∈ l1, ∃ dc, sd.content = Sum.inl dc)
    (h2 : ∀ sd ∈ l2, ∃ dc, sd.content = Sum.inl dc) :
    ∃ ss1 ss2 : List Slide,
      (buildMultipleSlides ds (l1 ++ bad :: l2) ctx).1 = ss1 ++ ss2 ∧
      ss1.length = l1.length ∧ ss2.length = l2.length ∧
      (buildMultipleSlides ds (l1 ++ bad :: l2) ctx).2.log
        = ds.log ++ [s!"Failed to build slide {l1.length}: {contentErrMsg}"] := by
  obtain ⟨ss1, dsA, hfold1, hlen1, hlogA⟩ :=
    batchFold_all_ok ctx l1 0 [] ds h1
  have hbadstep : batchStep ctx ([] ++ ss1.map some, dsA) (l1.length, bad)
      = (([] ++ ss1.map some) ++ [none],
         { dsA with log := dsA.log
            ++ [s!"Failed to build slide {l1.length}: {contentErrMsg}"] }) := by
    unfold batchStep
    rw [buildAdvancedSlide_err dsA bad ctx v hbad]
  obtain ⟨ss2, dsB, hfold2, hlen2, hlogB⟩ :=
    batchFold_all_ok ctx l2 (l1.length + 1) (([] ++ ss1.map some) ++ [none])
      { dsA with log := dsA.log
          ++ [s!"Failed to build slide {l1.length}: {contentErrMsg}"] } h2
  have hfold : (l1 ++ bad :: l2).enum.foldl (batchStep ctx) ([], ds)
      = ((([] ++ ss1.map some) ++ [none]) ++ ss2.map some, dsB) := by
    rw [List.enum_append, List.foldl_append,
      show l1.enum = List.enumFrom 0 l1 from rfl, hfold1, List.enumFrom_cons,
      List.foldl_cons, hbadstep, hfold2]
  refine ⟨ss1, ss2, ?_, hlen1, hlen2, ?_⟩
  · rw [buildMultipleSlides_eq, hfold]
    simp [List.filterMap_append, filterMap_id_map_some]
  · rw [buildMultipleSlides_eq, hfold]
    show dsB.log = _
    rw [hlogB]
    show dsA.log ++ _ = _
    rw [hlogA]
/-- Witness for C6: a three-input batch whose middle input is
malformed yields two documents and the one console-error record
`"Failed to build slide 1: Content must be an instance of
DialogueContent"`. -/
theorem buildMultipleSlides_partial_failure_witness :
    (buildMultipleSlides demoDirector
        ([demoSlideData] ++ badSlideData :: [demoSlideData]) wmCtx).1.length
      = 2 ∧
    (buildMultipleSlides demoDirector
        ([demoSlideData] ++ badSlideData :: [demoSlideData]) wmCtx).2.log
      = ["Failed to build slide 1: Content must be an instance of DialogueContent"] := by
  obtain ⟨ss1, ss2, hres, hlen1, hlen2, hlog⟩ :=
    buildMultipleSlides_partial_failure demoDirector wmCtx [demoSlideData]
      [demoSlideData] badSlideData (.jstr "nope") rfl
      (by
        intro sd hsd
        rw [List.mem_singleton] at hsd
        subst hsd
        exact ⟨DialogueContent.new 0, rfl⟩)
      (by
        intro sd hsd
        rw [List.mem_singleton] at hsd
        subst hsd
        exact ⟨DialogueContent.new 0, rfl⟩)
  constructor
  · rw [hres, List.length_append, hlen1, hlen2]
    rfl
  · rw [hlog]
    decide
theorem errMsgs_addError (s : Slide) (m : String) (c : Nat) :
    errMsgs (s.addValidationError m c) = errMsgs s ++ [m] := by
  simp [errMsgs, Slide.addValidationError]

theorem errMsgs_addWarning (s : Slide) (m : String) (c : Nat) :
    errMsgs (s.addValidationWarning m c) = errMsgs s := rfl

theorem errMsgs_clear (s : Slide) : errMsgs s.clearValidation = [] := rfl

theorem mem_errMsgs_titleCheck (p : Slide × Nat) (m : String)
    (h : m ∈ errMsgs (titleCheckStep p).1) :
    m ∈ errMsgs p.1 ∨ m = "Title is required" := by
  unfold titleCheckStep at h
  split at h
  · replace h : m ∈ errMsgs (p.1.addValidationError "Title is required" p.2) := h
    rw [errMsgs_addError] at h
    rcases List.mem_append.mp h with h2 | h2
    · exact Or.inl h2
    · exact Or.inr (List.mem_singleton.mp h2)
  · exact Or.inl h

theorem mem_errMsgs_typeCheck (p : Slide × Nat) (m : String)
    (h : m ∈ errMsgs (typeCheckStep p).1) :
    m ∈ errMsgs p.1 ∨ m = "Slide type must be specified" := by
  unfold typeCheckStep at h
  split at h
  case _ t =>
    split at h
    · replace h :
          m ∈ errMsgs (p.1.addValidationError "Slide type must be specified" p.2) := h
      rw [errMsgs_addError] at h
      rcases List.mem_append.mp h with h2 | h2
      · exact Or.inl h2
      · exact Or.inr (List.mem_singleton.mp h2)
    · exact Or.inl h
  case _ =>
    replace h :
        m ∈ errMsgs (p.1.addValidationError "Slide type must be specified" p.2) := h
    rw [errMsgs_addError] at h
    rcases List.mem_append.mp h with h2 | h2
    · exact Or.inl h2
    · exact Or.inr (List.mem_singleton.mp h2)

theorem errMsgs_contentCheck (p : Slide × Nat) :
    errMsgs (contentCheckStep p).1 = errMsgs p.1 := by
  unfold contentCheckStep
  split <;> rfl

theorem mem_errMsgs_runUniversal (s : Slide) (c : Nat) (m : String)
    (h : m ∈ errMsgs (runUniversalValidation s c).1) :
    m = "Title is required" ∨ m = "Slide type must be specified" := by
  unfold runUniversalValidation at h
  rw [errMsgs_contentCheck] at h
  rcases mem_errMsgs_typeCheck _ _ h with h2 | h2
  · rcases mem_errMsgs_titleCheck _ _ h2 with h3 | h3
    · exact absurd h3 (List.not_mem_nil m)
    · exact Or.inl h3
  · exact Or.inr h2

theorem mem_errMsgs_addErrorsWith (msgs : List String) (pfx : String)
    (m : String) :
    ∀ sc : Slide × Nat, m ∈ errMsgs (addErrorsWith sc pfx msgs).1 →
      m ∈ errMsgs sc.1 ∨ ∃ t, t ∈ msgs ∧ m = pfx ++ t := by
  induction msgs with
  | nil =>
      intro sc h
      exact Or.inl h
  | cons e es ih =>
      intro sc h
      replace h :
          m ∈ errMsgs (addErrorsWith
            (sc.1.addValidationError (pfx ++ e) sc.2, sc.2 + 1) pfx es).1 := h
      rcases ih _ h with h2 | ⟨t, ht, hm⟩
      · replace h2 : m ∈ errMsgs (sc.1.addValidationError (pfx ++ e) sc.2) := h2
        rw [errMsgs_addError] at h2
        rcases List.mem_append.mp h2 with h3 | h3
        · exact Or.inl h3
        · exact Or.inr ⟨e, List.mem_cons_self _ _, List.mem_singleton.mp h3⟩
      · exact Or.inr ⟨t, List.mem_cons_of_mem _ ht, hm⟩

theorem errMsgs_addWarningsWith (msgs : List String) (pfx : String) :
    ∀ sc : Slide × Nat, errMsgs (addWarningsWith sc pfx msgs).1 = errMsgs sc.1 := by
  induction msgs with
  | nil => intro sc; rfl
  | cons w ws ih =>
      intro sc
      replace h := ih (sc.1.addValidationWarning (pfx ++ w) sc.2, sc.2 + 1)
      exact h.trans (errMsgs_addWarning _ _ _)
theorem errMsgs_customValidation_eq (st : DialogueBuilderState)
    (hdial : jTruthy ((objLookup st.slide.content "dialogue").getD .jnull) = true) :
    errMsgs st.customValidation.slide
      = errMsgs (if (st.dialogueContent.validate).1 = true
          then (st.slide, st.ctr)
          else addErrorsWith (st.slide, st.ctr) "Dialogue: "
            (st.dialogueContent.validate).2.1).1 := by
  have hc0 : (if (st.dialogueContent.validate).1 = true
      then (st.slide, st.ctr)
      else addErrorsWith (st.slide, st.ctr) "Dialogue: "
        (st.dialogueContent.validate).2.1).1.content = st.slide.content := by
    split
    · rfl
    · exact content_addErrorsWith _ _ _
  unfold DialogueBuilderState.customValidation
  simp only [content_addWarningsWith, hc0, hdial, if_true]
  exact errMsgs_addWarningsWith _ _ _
theorem mem_errMsgs_validate (st : DialogueBuilderState) (m : String)
    (hdial : jTruthy ((objLookup st.slide.content "dialogue").getD .jnull) = true)
    (h : m ∈ errMsgs st.validate.slide) :
    m = "Title is required" ∨ m = "Slide type must be specified"
      ∨ ∃ t, m = "Dialogue: " ++ t := by
  unfold DialogueBuilderState.validate at h
  simp only at h
  have hd2 : jTruthy ((objLookup
      ({ st with
          slide := (runUniversalValidation st.slide st.ctr).1
          ctr := (runUniversalValidation st.slide st.ctr).2 }
        : DialogueBuilderState).slide.content "dialogue").getD .jnull) = true := by
    show jTruthy ((objLookup
      (runUniversalValidation st.slide st.ctr).1.content "dialogue").getD .jnull)
        = true
    rw [content_runUniversal]
    exact hdial
  rw [errMsgs_customValidation_eq _ hd2] at h
  split at h
  · replace h : m ∈ errMsgs (runUniversalValidation st.slide st.ctr).1 := h
    rcases mem_errMsgs_runUniversal _ _ _ h with h2 | h2
    · exact Or.inl h2
    · exact Or.inr (Or.inl h2)
  · rcases mem_errMsgs_addErrorsWith _ _ _ _ h with h2 | ⟨t, _, hm⟩
    · replace h2 : m ∈ errMsgs (runUniversalValidation st.slide st.ctr).1 := h2
      rcases mem_errMsgs_runUniversal _ _ _ h2 with h3 | h3
      · exact Or.inl h3
      · exact Or.inr (Or.inl h3)
    · exact Or.inr (Or.inr ⟨t, hm⟩)
theorem notFinalized_not_prefixed (t : String) :
    notFinalizedMsg ≠ "Dialogue: " ++ t := by
  intro heq
  have hd : notFinalizedMsg.data.take 10 = ("Dialogue: " ++ t).data.take 10 :=
    congrArg (fun s => s.data.take 10) heq
  rw [String.data_append, List.take_left' (by decide)] at hd
  exact absurd hd (by decide)

theorem notFinalized_not_universal :
    notFinalizedMsg ≠ "Title is required" ∧
    notFinalizedMsg ≠ "Slide type must be specified" := by
  constructor <;> decide

theorem lookup_finalizeContent_dialogue (dc : DialogueContent) :
    objLookup (finalizeContent dc) "dialogue" = some dc.toJSON := rfl

theorem jTruthy_toJSON (dc : DialogueContent) : jTruthy dc.toJSON = true := rfl

theorem getResult_of_truthy (st : DialogueBuilderState)
    (h : jTruthy ((objLookup st.slide.content "dialogue").getD .jnull) = true) :
    st.getResult = (st.validate.slide, st.validate) := by
  unfold DialogueBuilderState.getResult
  simp only [h, if_true]

theorem getResult_of_not_truthy (st : DialogueBuilderState)
    (h : ¬ jTruthy ((objLookup st.slide.content "dialogue").getD .jnull) = true) :
    st.getResult = ((st.finalize).validate.slide, (st.finalize).validate) := by
  unfold DialogueBuilderState.getResult
  simp only [h, if_false]
  rfl

theorem notFinalized_never_added (st : DialogueBuilderState) :
    notFinalizedMsg ∉ errMsgs (st.getResult).1 := by
  intro hmem
  by_cases hd : jTruthy ((objLookup st.slide.content "dialogue").getD .jnull) = true
  · rw [getResult_of_truthy st hd] at hmem
    rcases mem_errMsgs_validate st _ hd hmem with h1 | h1 | ⟨t, h1⟩
    · exact absurd h1 notFinalized_not_universal.1
    · exact absurd h1 notFinalized_not_universal.2
    · exact absurd h1 (notFinalized_not_prefixed t)
  · rw [getResult_of_not_truthy st hd] at hmem
    have hd2 : jTruthy ((objLookup (st.finalize).slide.content "dialogue").getD
        .jnull) = true := by
      rw [content_finalize, lookup_finalizeContent_dialogue]
      exact jTruthy_toJSON _
    rcases mem_errMsgs_validate st.finalize _ hd2 hmem with h1 | h1 | ⟨t, h1⟩
    · exact absurd h1 notFinalized_not_universal.1
    · exact absurd h1 notFinalized_not_universal.2
    · exact absurd h1 (notFinalized_not_prefixed t)
/-- **C10**: for every dialogue builder state whose slide content has
no `dialogue` field, `getResult()` first runs `finalize()` and then
the validate pass, so the returned document's content is exactly the
finalized dialogue record (carrying the serialized dialogue under
`dialogue`, with its id, speakers, messages, duration and message
count), and the `Dialogue content not finalized` error branch of
`customValidation` is unreachable through `getResult`. -/
theorem getResult_auto_finalizes (st : DialogueBuilderState)
    (h : objLookup st.slide.content "dialogue" = none) :
    st.getResult = ((st.finalize).validate.slide, (st.finalize).validate) ∧
    (st.getResult).1.content
      = finalizeContent st.dialogueContent.calculateDuration ∧
    objLookup (st.getResult).1.content "dialogue"
      = some st.dialogueContent.calculateDuration.toJSON ∧
    notFinalizedMsg ∉ errMsgs (st.getResult).1 := by
  have hnt : ¬ jTruthy ((objLookup st.slide.content "dialogue").getD .jnull)
      = true := by
    rw [h]
    decide
  have hres := getResult_of_not_truthy st hnt
  refine ⟨hres, ?_, ?_, notFinalized_never_added st⟩
  · rw [hres]
    show (st.finalize).validate.slide.content = _
    rw [content_validate, content_finalize]
  · rw [hres]
    show objLookup (st.finalize).validate.slide.content "dialogue" = _
    rw [content_validate, content_finalize, lookup_finalizeContent_dialogue]

/-- Witness for C10: the fresh dialogue builder has no `dialogue`
field on its empty content, and its `getResult` returns the finalized
content with no `not finalized` validation error. -/
theorem getResult_auto_finalizes_witness :
    objLookup (DialogueBuilderState.new 0).slide.content "dialogue" = none ∧
    ((DialogueBuilderState.new 0).getResult).1.content
      = finalizeContent
          (DialogueBuilderState.new 0).dialogueContent.calculateDuration ∧
    notFinalizedMsg ∉ errMsgs ((DialogueBuilderState.new 0).getResult).1 :=
  ⟨rfl, (getResult_auto_finalizes (DialogueBuilderState.new 0) rfl).2.1,
    (getResult_auto_finalizes (DialogueBuilderState.new 0) rfl).2.2.2⟩
